import Mathlib

/-
  Verification development for the analysis dispatch and statistics engine of
  the reachoutanalytics repository (src/src/app/(statistics)/components/Analysis.tsx).

  The TypeScript source is shallowly embedded: JavaScript numbers are modelled
  by exact rationals (ℚ), epoch milliseconds by ℤ, JavaScript `undefined` by
  `Option.none`, and the heterogeneous cell values of a dataset row by the
  inductive type `Value`.  Functions that compute square roots or logarithms
  (Math.sqrt, Math.log) are modelled with `Real.sqrt` / `Real.log` and are the
  only noncomputable definitions.  JavaScript objects used as accumulators are
  modelled by insertion-ordered association lists, matching the string-key
  insertion order of JS object literals.
-/

set_option maxHeartbeats 1000000
set_option maxRecDepth 4000

namespace RA

/-- A cell value of a dataset row: a finite number, a string, a native date
object (carried as its epoch-millisecond timestamp), or JSON null.  JavaScript
`undefined` (absent key) is modelled as `Option.none` at use sites. -/
inductive Value where
  | num (q : ℚ)
  | str (s : String)
  | date (ms : ℤ)
  | nullV
deriving DecidableEq, Repr

/-- A dataset row (`Record<string, any>`): an association list from field name
to value.  Keys are unique in rows produced by JSON parsing; lookup returns the
first binding. -/
abbrev Rec := List (String × Value)

/-- `row[field]`: property lookup, `none` models JS `undefined`. -/
def rowGet (r : Rec) (f : String) : Option Value :=
  match r.find? (fun p => p.1 = f) with
  | some p => some p.2
  | none => none

/-- `row[field]` where the field name itself may be `undefined`
(accessing `obj[undefined]` yields `undefined` on these rows). -/
def rowGetOpt (r : Rec) (f : Option String) : Option Value :=
  match f with
  | some s => rowGet r s
  | none => none

/-- JS truthiness of a value: `0`, `""` and `null` are falsy (NaN does not
arise: numbers are exact rationals). -/
def truthyV (v : Value) : Bool :=
  match v with
  | .num q => q ≠ 0
  | .str s => s ≠ ""
  | .date _ => true
  | .nullV => false

/-- JS truthiness of a possibly-`undefined` value. -/
def truthy (v : Option Value) : Bool :=
  match v with
  | some w => truthyV w
  | none => false

/-- `v == null`: true for both `null` and `undefined`. -/
def isNullish (v : Option Value) : Bool :=
  match v with
  | some .nullV => true
  | none => true
  | _ => false

/-- `typeof v === "number"`. -/
def isNumber (v : Option Value) : Bool :=
  match v with
  | some (.num _) => true
  | _ => false

/-- The numeric payload of a value known to be a number (0 otherwise). -/
def numOf (v : Option Value) : ℚ :=
  match v with
  | some (.num q) => q
  | _ => 0

/-- Truthiness of a possibly-`undefined` field-name string (`""` is falsy). -/
def fieldTruthy (f : Option String) : Bool :=
  match f with
  | some s => s ≠ ""
  | none => false

/-- Rendering of a rational as done by JS number-to-string conversion; the
exact decimal formatting is irrelevant to every property proved here, so the
canonical `Rat` rendering stands in for it. -/
def jsNumToString (q : ℚ) : String := toString q

/-- `String(v)` for a defined value.  A native date renders as a date string;
its exact shape is irrelevant to the properties proved here. -/
def jsString (v : Value) : String :=
  match v with
  | .num q => jsNumToString q
  | .str s => s
  | .date ms => "Date:" ++ toString ms
  | .nullV => "null"

/-- `String(v || dflt)`: the default replaces any falsy value. -/
def jsStringOr (v : Option Value) (dflt : String) : String :=
  match v with
  | some w => if truthyV w then jsString w else dflt
  | none => dflt

/-- `String(v ?? dflt)`: the default replaces only `null`/`undefined`. -/
def jsStringNullish (v : Option Value) (dflt : String) : String :=
  match v with
  | some .nullV => dflt
  | some w => jsString w
  | none => dflt

/- ### Calendar arithmetic (Date.UTC and the getUTC* accessors) -/

/-- Days from 1970-01-01 to the proleptic Gregorian civil date (y, m, d) with
month `m` in 1..12 (Howard Hinnant's days-from-civil algorithm, which is what
the JS Date UTC calendar computes). -/
def daysFromCivil (y m d : ℤ) : ℤ :=
  let yAdj : ℤ := y - (if m ≤ 2 then 1 else 0)
  let era : ℤ := Int.fdiv yAdj 400
  let yoe : ℤ := yAdj - era * 400
  let mp : ℤ := m + (if 2 < m then (-3) else 9)
  let doy : ℤ := Int.fdiv (153 * mp + 2) 5 + d - 1
  let doe : ℤ := yoe * 365 + Int.fdiv yoe 4 - Int.fdiv yoe 100 + doy
  era * 146097 + doe - 719468

/-- `Date.UTC(year, monthIndex, day)` in milliseconds; `monthIndex` is 0-based
as in JS. -/
def dateUTC (year monthIdx day : ℤ) : ℤ :=
  86400000 * daysFromCivil year (monthIdx + 1) day

/-- Civil date (y, m in 1..12, d) of a day count from 1970-01-01
(Hinnant's civil-from-days algorithm). -/
def civilFromDays (z0 : ℤ) : ℤ × ℤ × ℤ :=
  let z : ℤ := z0 + 719468
  let era : ℤ := Int.fdiv z 146097
  let doe : ℤ := z - era * 146097
  let yoe : ℤ := Int.fdiv (doe - Int.fdiv doe 1460 + Int.fdiv doe 36524 - Int.fdiv doe 146096) 365
  let y : ℤ := yoe + era * 400
  let doy : ℤ := doe - (365 * yoe + Int.fdiv yoe 4 - Int.fdiv yoe 100)
  let mp : ℤ := Int.fdiv (5 * doy + 2) 153
  let d : ℤ := doy - Int.fdiv (153 * mp + 2) 5 + 1
  let m : ℤ := mp + (if mp < 10 then 3 else (-9))
  (y + (if m ≤ 2 then 1 else 0), m, d)

/-- The civil UTC date of an epoch-millisecond timestamp
(`getUTCFullYear`/`getUTCMonth`+1/`getUTCDate`). -/
def epochCivil (ms : ℤ) : ℤ × ℤ × ℤ :=
  civilFromDays (Int.fdiv ms 86400000)

/-- `new Date(ms).getUTCFullYear()`. -/
def epochYear (ms : ℤ) : ℤ := (epochCivil ms).1

/-- `Math.round`: round half toward positive infinity, `⌊q + 1/2⌋`
(written as an explicit floor division so that it evaluates). -/
def jsRound (q : ℚ) : ℤ := (q + 1/2).num.fdiv ((q + 1/2).den : ℤ)

/-- Models the environment's general date-string parser (`new Date(string)`)
on ISO calendar dates `YYYY-MM-DD`, the format the app's spreadsheet ingestion
produces; every other string is treated as unparsable.  No property proved
here depends on which strings parse. -/
def jsParseDate (s : String) : Option ℤ :=
  match (s.splitOn "-").map String.toNat? with
  | [some y, some m, some d] =>
      if 1 ≤ m ∧ m ≤ 12 ∧ 1 ≤ d ∧ d ≤ 31 then
        some (86400000 * daysFromCivil y m d)
      else none
  | _ => none

/-- `toEpochMs(value)`: a native date yields its own timestamp (always finite
in this model); a finite number is an Excel serial date from the 1899-12-30
epoch, rounded to whole days; a string goes through the date parser; anything
else is not convertible. -/
def toEpochMs (value : Option Value) : Option ℤ :=
  match value with
  | none => none
  | some .nullV => none
  | some (.date ms) => some ms
  | some (.num q) => some (dateUTC 1899 11 30 + jsRound q * (24 * 3600 * 1000))
  | some (.str s) => jsParseDate s

/- ### Type inference -/

/-- The shared sampling loop of `isMostlyNumeric` and `isMostlyDateLike`:
walk the rows in order, skip `null`/`undefined` values of `field`, count a
sample as hitting `pred`, and stop once 50 values have been seen (the break
fires after the 50th value is counted).  Returns (seen, hits). -/
def sampleLoop (pred : Value → Bool) (field : String) :
    List Rec → ℕ → ℕ → ℕ × ℕ
  | [], seen, hits => (seen, hits)
  | r :: rs, seen, hits =>
      match rowGet r field with
      | none => sampleLoop pred field rs seen hits
      | some .nullV => sampleLoop pred field rs seen hits
      | some v =>
          let seen1 := seen + 1
          let hits1 := if pred v then hits + 1 else hits
          if 50 ≤ seen1 then (seen1, hits1) else sampleLoop pred field rs seen1 hits1

/-- The sample counts as numeric iff it is a finite number
(`typeof v === "number" && Number.isFinite(v)`; rationals are always finite). -/
def numericSample (v : Value) : Bool :=
  match v with
  | .num _ => true
  | _ => false

/-- The sample counts as date-like iff `toEpochMs` converts it. -/
def dateLikeSample (v : Value) : Bool :=
  (toEpochMs (some v)).isSome

/-- `isMostlyNumeric(field, rows)`: at least 70% of up to 50 sampled non-null
values are finite numbers; false when the field name is falsy or no value was
sampled. -/
def isMostlyNumeric (field : Option String) (rows : List Rec) : Bool :=
  match field with
  | none => false
  | some f =>
      if f = "" then false
      else
        let sc := sampleLoop numericSample f rows 0 0
        decide (0 < sc.1) && decide ((7 : ℚ) / 10 ≤ (sc.2 : ℚ) / (sc.1 : ℚ))

/-- `isMostlyDateLike(field, rows)`: same sampling discipline with the
`toEpochMs` convertibility test. -/
def isMostlyDateLike (field : Option String) (rows : List Rec) : Bool :=
  match field with
  | none => false
  | some f =>
      if f = "" then false
      else
        let sc := sampleLoop dateLikeSample f rows 0 0
        decide (0 < sc.1) && decide ((7 : ℚ) / 10 ≤ (sc.2 : ℚ) / (sc.1 : ℚ))

/- ### Association-list accumulators (JS objects and Maps) -/

/-- `obj[k] = (obj[k] || 0) + v` on an insertion-ordered association list. -/
def upsertAdd (l : List (String × ℚ)) (k : String) (v : ℚ) : List (String × ℚ) :=
  match l with
  | [] => [(k, v)]
  | (k0, v0) :: rest =>
      if k0 = k then (k0, v0 + v) :: rest else (k0, v0) :: upsertAdd rest k v

/-- Lookup in an association list. -/
def alookup (l : List (String × ℚ)) (k : String) : Option ℚ :=
  match l.find? (fun p => p.1 = k) with
  | some p => some p.2
  | none => none

/-- `grouped[group][item] += 1` on a nested association list
(`grouped[group] ||= {}` included). -/
def upsertAdd2 (l : List (String × List (String × ℚ))) (g it : String) :
    List (String × List (String × ℚ)) :=
  match l with
  | [] => [(g, [(it, 1)])]
  | (k0, m0) :: rest =>
      if k0 = g then (k0, upsertAdd m0 it 1) :: rest else (k0, m0) :: upsertAdd2 rest g it

/-- Lookup in a nested association list (`grouped[g]?.[item]`). -/
def alookup2 (l : List (String × List (String × ℚ))) (g it : String) : Option ℚ :=
  match l.find? (fun p => p.1 = g) with
  | some p => alookup p.2 it
  | none => none

/-- Worker for first-occurrence deduplication. -/
def firstDedupGo (seen : List String) : List String → List String
  | [] => []
  | x :: xs => if x ∈ seen then firstDedupGo seen xs else x :: firstDedupGo (x :: seen) xs

/-- First-occurrence deduplication, as `Array.from(new Set(xs))`. -/
def firstDedup (l : List String) : List String :=
  firstDedupGo [] l

/- ### Stable comparator sorting (Array.prototype.sort) -/

/-- Insert `x` into `acc` before the first element `y` with `lt x y`; with a
strict comparator this realises the stable sort of `Array.prototype.sort`. -/
def insertSorted (lt : α → α → Prop) [DecidableRel lt] (x : α) : List α → List α
  | [] => [x]
  | y :: ys => if lt x y then x :: y :: ys else y :: insertSorted lt x ys

/-- Stable sort by a strict ordering predicate: elements are inserted left to
right, each going after all elements it does not strictly precede. -/
def jsSortBy (lt : α → α → Prop) [DecidableRel lt] (l : List α) : List α :=
  l.foldl (fun acc x => insertSorted lt x acc) []

/- ### JS Array.prototype.slice -/

/-- Normalised slice index: negative indices count from the end, and the
result is clamped to `[0, n]`. -/
def jsSliceIdx (n : ℕ) (i : ℤ) : ℕ :=
  if i < 0 then ((n : ℤ) + i).toNat else min i.toNat n

/-- `arr.slice(s)`. -/
def jsSliceFrom (l : List α) (s : ℤ) : List α :=
  l.drop (jsSliceIdx l.length s)

/-- `arr.slice(s, e)`. -/
def jsSlice (l : List α) (s e : ℤ) : List α :=
  (l.take (jsSliceIdx l.length e)).drop (jsSliceIdx l.length s)

/- ### Statistics primitives -/

/-- `values.reduce((a, b) => a + b, 0)`. -/
def qsum (l : List ℚ) : ℚ := l.foldl (· + ·) 0

/-- `meanOfField`: mean of the finite numeric values of a field, 0 if none. -/
def meanOfField (f : String) (rows : List Rec) : ℚ :=
  let vals := rows.filterMap (fun r =>
    match rowGet r f with
    | some (.num q) => some q
    | _ => none)
  if vals.length = 0 then 0 else qsum vals / vals.length

/-- Sample (Bessel-corrected) standard deviation; 0 for fewer than 2 values. -/
noncomputable def stddev (values : List ℚ) : ℝ :=
  if values.length < 2 then 0
  else
    let m : ℚ := qsum values / values.length
    let v : ℚ := qsum (values.map (fun x => (x - m) * (x - m))) / ((values.length : ℚ) - 1)
    Real.sqrt (v : ℝ)

/-- The running-sum loop of `movingAverage`: `all` is the full input, `i` the
current index, `sum` the running window sum. -/
def maGo (all : List ℚ) (w : ℕ) : List ℚ → ℕ → ℚ → List ℚ
  | [], _, _ => []
  | v :: rest, i, sum =>
      let s1 := sum + v
      let s2 := if w ≤ i then s1 - all.getD (i - w) 0 else s1
      s2 / ((min (i + 1) w : ℕ) : ℚ) :: maGo all w rest (i + 1) s2

/-- `movingAverage(values, window)`: trailing-window running mean, dividing by
the number of elements seen so far in the first `window - 1` positions. -/
def movingAverage (values : List ℚ) (window : ℕ) : List ℚ :=
  maGo values (max 1 window) values 0 0

/-- Ordinary least squares `y = a + b·x`; `(0, 0)` for fewer than 2 points or
zero x-variance. -/
def linearRegression (xs ys : List ℚ) : ℚ × ℚ :=
  let n := min xs.length ys.length
  if n < 2 then (0, 0)
  else
    let meanX := qsum (xs.take n) / n
    let meanY := qsum (ys.take n) / n
    let num := qsum ((List.zip (xs.take n) (ys.take n)).map
      (fun p => (p.1 - meanX) * (p.2 - meanY)))
    let den := qsum ((xs.take n).map (fun x => (x - meanX) * (x - meanX)))
    let b := if den = 0 then 0 else num / den
    (meanY - b * meanX, b)

/-- The pair-extraction loop of `pearson`: rows where both fields hold
numbers. -/
def pearsonPairs (fieldA fieldB : String) (rows : List Rec) : List (ℚ × ℚ) :=
  rows.filterMap (fun r =>
    match rowGet r fieldA, rowGet r fieldB with
    | some (.num a), some (.num b) => some (a, b)
    | _, _ => none)

/-- The centered sum of squares of a field against itself — the quantity the
claim calls "nonzero variance of the paired numeric values". -/
def centeredSumSq (f : String) (rows : List Rec) : ℚ :=
  let pairs := pearsonPairs f f rows
  let m := qsum (pairs.map Prod.fst) / pairs.length
  qsum (pairs.map (fun p => (p.1 - m) * (p.1 - m)))

/-- Pearson correlation over rows where both fields are numbers; 0 for fewer
than 2 valid pairs or zero variance in either field. -/
noncomputable def pearson (fieldA fieldB : String) (rows : List Rec) : ℝ :=
  let pairs := pearsonPairs fieldA fieldB rows
  if pairs.length < 2 then 0
  else
    let meanA := qsum (pairs.map Prod.fst) / pairs.length
    let meanB := qsum (pairs.map Prod.snd) / pairs.length
    let num := qsum (pairs.map (fun p => (p.1 - meanA) * (p.2 - meanB)))
    let denA := qsum (pairs.map (fun p => (p.1 - meanA) * (p.1 - meanA)))
    let denB := qsum (pairs.map (fun p => (p.2 - meanB) * (p.2 - meanB)))
    if denA = 0 ∨ denB = 0 then 0
    else (num : ℝ) / Real.sqrt ((denA : ℝ) * (denB : ℝ))

/-- The full Pearson matrix of the Correlation analysis; the diagonal is
pushed as the literal 1 without calling `pearson`. -/
noncomputable def buildCorrelationMatrix (fields : List String) (rows : List Rec) :
    List (List ℝ) :=
  (List.range fields.length).map (fun i =>
    (List.range fields.length).map (fun j =>
      if i = j then 1 else pearson (fields.getD i "") (fields.getD j "") rows))

/-- `discretize`: numbers map to a 0.1-wide bin label, everything else to a
trimmed 40-character string label. -/
def discretize (v : Value) : String :=
  match v with
  | .num q => "n:" ++ jsNumToString ((⌊q * 10⌋ : ℚ) / 10)
  | w => "c:" ++ ((jsString w).trim.take 40)

/-- The capped pair-collection loop of `mutualInformation` (break fires after
the 5000th pair is pushed). -/
def miPairs (aField bField : String) : List Rec → List (String × String) → List (String × String)
  | [], acc => acc
  | r :: rs, acc =>
      if isNullish (rowGet r aField) || isNullish (rowGet r bField) then
        miPairs aField bField rs acc
      else
        let acc1 := acc ++ [(discretize ((rowGet r aField).getD .nullV),
                             discretize ((rowGet r bField).getD .nullV))]
        if 5000 ≤ acc1.length then acc1 else miPairs aField bField rs acc1

/-- Count-map accumulation for the MI marginals and joint. -/
def countUp (l : List (String × ℕ)) (k : String) : List (String × ℕ) :=
  match l with
  | [] => [(k, 1)]
  | (k0, c0) :: rest =>
      if k0 = k then (k0, c0 + 1) :: rest else (k0, c0) :: countUp rest k

/-- Lookup in a count map, `?? 0`. -/
def countOf (l : List (String × ℕ)) (k : String) : ℕ :=
  match l.find? (fun p => p.1 = k) with
  | some p => p.2
  | none => 0

/-- Discretized empirical mutual information, summed over observed pairs of
the joint map; keys of the joint are `a ++ "|||" ++ b` and are split back as
in the source. -/
noncomputable def mutualInformation (aField bField : String) (rows : List Rec) : ℝ :=
  let pairs := miPairs aField bField rows []
  if pairs.length < 2 then 0
  else
    let n : ℚ := pairs.length
    let pA := pairs.foldl (fun m p => countUp m p.1) []
    let pB := pairs.foldl (fun m p => countUp m p.2) []
    let pAB := pairs.foldl (fun m p => countUp m (p.1 ++ "|||" ++ p.2)) []
    (pAB.map (fun kc =>
      let parts := kc.1.splitOn "|||"
      let a := parts.getD 0 ""
      let b := parts.getD 1 ""
      let p : ℚ := (kc.2 : ℚ) / n
      let pa : ℚ := (countOf pA a : ℚ) / n
      let pb : ℚ := (countOf pB b : ℚ) / n
      if 0 < pa ∧ 0 < pb then (p : ℝ) * Real.log ((p : ℝ) / ((pa : ℝ) * (pb : ℝ)))
      else 0)).sum

/-- Pairwise MI matrix; the diagonal is pushed as the literal 0. -/
noncomputable def buildMutualInformationMatrix (fields : List String) (rows : List Rec) :
    List (List ℝ) :=
  (List.range fields.length).map (fun i =>
    (List.range fields.length).map (fun j =>
      if i = j then 0 else mutualInformation (fields.getD i "") (fields.getD j "") rows))

/- ### Series extraction -/

/-- A time-series point `{t, y}`. -/
structure TimePoint where
  t : ℤ
  y : ℚ
deriving DecidableEq, Repr

/-- `extractTimeSeries(timeField, valueField, rows)`: keep rows whose time
converts and whose value is a finite number, sorted ascending by time
(stably, as the JS comparator sort). -/
def extractTimeSeries (timeField valueField : String) (rows : List Rec) :
    List TimePoint :=
  let pts := rows.filterMap (fun r =>
    match toEpochMs (rowGet r timeField), rowGet r valueField with
    | some t, some (.num y) => some (TimePoint.mk t y)
    | _, _ => none)
  jsSortBy (fun p q : TimePoint => p.t < q.t) pts

/-- `bucketByDay(points)`: UTC calendar-day buckets (key = midnight of the
point's UTC day), summing `y`, in ascending key order.  Map insertion order
is an association list; the final sort is the ascending JS comparator sort. -/
def bucketByDay (points : List TimePoint) : List TimePoint :=
  let m := points.foldl (fun (m : List (ℤ × ℚ)) p =>
    let c := epochCivil p.t
    let key := dateUTC c.1 (c.2.1 - 1) c.2.2
    match m.find? (fun e => e.1 = key) with
    | some _ => m.map (fun e => if e.1 = key then (e.1, e.2 + p.y) else e)
    | none => m ++ [(key, p.y)]) []
  (jsSortBy (fun a b : ℤ × ℚ => a.1 < b.1) m).map (fun e => TimePoint.mk e.1 e.2)

/-- `splitLastPeriod(points)`: period length `max(10, floor(0.25·n))`;
`current = pts.slice(n - period)`, `previous = pts.slice(max(0, n - 2·period),
n - period)`, with JS slice index semantics. -/
def splitLastPeriod (pts : List TimePoint) : List TimePoint × List TimePoint :=
  let n := pts.length
  let period : ℕ := max 10 (n / 4)
  (jsSliceFrom pts ((n : ℤ) - period),
   jsSlice pts (max 0 ((n : ℤ) - 2 * period)) ((n : ℤ) - period))

/-- The period-over-period summary computed by the Period branch of the
dispatcher: current and previous period sums, their delta, and the percent
change — `null` when the previous-period sum is 0. -/
structure PopStats where
  sumCur : ℚ
  sumPrev : ℚ
  delta : ℚ
  pct : Option ℚ
deriving DecidableEq, Repr

/-- `popSummary`: the sums/delta/pct computation of the Period branches. -/
def popSummary (pts : List TimePoint) : PopStats :=
  let sp := splitLastPeriod pts
  let sumCur := qsum (sp.1.map TimePoint.y)
  let sumPrev := qsum (sp.2.map TimePoint.y)
  let delta := sumCur - sumPrev
  { sumCur := sumCur, sumPrev := sumPrev, delta := delta,
    pct := if sumPrev ≠ 0 then some (delta / sumPrev) else none }

/- ### k-means -/

/-- A 2D point. -/
structure Point2 where
  x : ℚ
  y : ℚ
deriving DecidableEq, Repr

/-- Initial centers: evenly spaced picks by index, `pts[⌊i·n/k⌋]`. -/
def kmeansInit (pts : List Point2) (k : ℕ) : List Point2 :=
  (List.range k).map (fun i => pts.getD (i * pts.length / k) (Point2.mk 0 0))

/-- Index of the nearest center by squared Euclidean distance; the strict `<`
comparison keeps the lowest index on ties (`bestD` starts at Infinity,
modelled by `none`). -/
def nearestCenter (p : Point2) (centers : List Point2) : ℕ :=
  (centers.foldl (fun (acc : ℕ × ℕ × Option ℚ) c =>
    let d := (p.x - c.x) * (p.x - c.x) + (p.y - c.y) * (p.y - c.y)
    let better := match acc.2.2 with
      | none => true
      | some bd => decide (d < bd)
    (acc.1 + 1, if better then acc.1 else acc.2.1, if better then some d else acc.2.2))
    (0, 0, none)).2.1

/-- One Lloyd update: recompute each center as the mean of its assigned
points, leaving centers with zero assigned points unchanged. -/
def kmeansUpdate (pts : List Point2) (labels : List ℕ) (k : ℕ)
    (centers : List Point2) : List Point2 :=
  (List.range k).map (fun c =>
    let mine := ((pts.zip labels).filter (fun pl => pl.2 = c)).map Prod.fst
    if mine.length = 0 then centers.getD c (Point2.mk 0 0)
    else Point2.mk (qsum (mine.map Point2.x) / mine.length)
                   (qsum (mine.map Point2.y) / mine.length))

/-- The fixed-count iteration loop: assign, then update. -/
def kmeansLoop (pts : List Point2) (k : ℕ) :
    ℕ → List Point2 → List ℕ → List ℕ × List Point2
  | 0, centers, labels => (labels, centers)
  | n + 1, centers, labels =>
      let _ := labels
      let labels1 := pts.map (fun p => nearestCenter p centers)
      kmeansLoop pts k n (kmeansUpdate pts labels1 k centers) labels1

/-- `kmeans2D(points, k, iterations)`: Lloyd's algorithm with index-spaced
seeding, fixed iteration count, no empty-cluster recovery. -/
def kmeans2D (pts : List Point2) (k iters : ℕ) : List ℕ × List Point2 :=
  if pts.length = 0 then ([], [])
  else kmeansLoop pts k iters (kmeansInit pts k) (List.replicate pts.length 0)

/- ### Result envelope -/

/-- A scalar entry of a `calculation` envelope. -/
inductive CalcVal where
  | num (q : ℚ)
  | str (s : String)
deriving DecidableEq, Repr

/-- A coordinate value of a chart trace: number, category label, or date. -/
inductive PlotVal where
  | num (v : ℝ)
  | str (s : String)
  | date (ms : ℤ)

/-- A chart trace; purely visual styling (colors, marker sizes, dash styles)
is omitted, everything the algorithms compute is kept. -/
structure Trace where
  ttype : String
  name : Option String := none
  mode : Option String := none
  x : List PlotVal := []
  y : List PlotVal := []
  z : List (List ℝ) := []

/-- The structured payload of the Period-over-Period layout callout
(`layout.annotations[0]` in the source renders `delta` and `pct` into its
text via `toFixed`; the numeric payload is kept). -/
structure PopCallout where
  yPos : ℚ
  delta : ℚ
  pct : Option ℚ

/-- Chart layout metadata: the title and the Period-over-Period callouts. -/
structure Layout where
  title : String
  callouts : List PopCallout := []

/-- The normalized result envelope: a plotly-like chart spec or a calculation
map. -/
inductive ResultEnvelope where
  | plotly (data : List Trace) (layout : Layout)
  | calculation (data : List (String × CalcVal))

/-- The data-insufficiency result every algorithm returns instead of
raising: a calculation envelope with a single `Error` entry. -/
def errorResult (msg : String) : ResultEnvelope :=
  .calculation [("Error", CalcVal.str msg)]

/-- The entries of a calculation envelope (empty for charts). -/
def calcEntries : ResultEnvelope → List (String × CalcVal)
  | .calculation kv => kv
  | .plotly _ _ => []

/-- The keys of a calculation envelope. -/
def calcKeys (e : ResultEnvelope) : List String :=
  (calcEntries e).map Prod.fst

/-- The traces of a chart envelope (empty for calculations). -/
def plotlyTraces : ResultEnvelope → List Trace
  | .plotly d _ => d
  | .calculation _ => []

/-- Whether the envelope is a chart. -/
def isPlotly : ResultEnvelope → Bool
  | .plotly _ _ => true
  | .calculation _ => false

/-- Whether the envelope is a calculation carrying an `Error` entry. -/
def hasErrorCalc : ResultEnvelope → Bool
  | .calculation kv => kv.any (fun p => p.1 = "Error")
  | .plotly _ _ => false

/- ### Analysis registry -/

/-- The 23 analysis-type enumerators of the `AnalysisType` string union, in
source order. -/
inductive AnalysisType where
  | calculatedMeasureKPI
  | ranking
  | breakdownGeoSpatial
  | breakdown
  | overview
  | trendOverTime
  | comparison
  | relativeImportance
  | rankingGrouped
  | yearToDate
  | processControlRollingMean
  | processControlMean
  | correlation
  | mutualInfo
  | clusteringKMeans
  | anomalySpike
  | anomalyTrend
  | periodOverPeriod
  | periodChanges
  | periodChangesDetailed
  | periodOverPeriodSelected
  | trendWithForecast
  | timeSeriesDecomposition
deriving DecidableEq, Repr

/-- The string value of each enumerator. -/
def AnalysisType.toStr : AnalysisType → String
  | .calculatedMeasureKPI => "Calculated Measure (KPI)"
  | .ranking => "Ranking"
  | .breakdownGeoSpatial => "Breakdown (geo spatial)"
  | .breakdown => "Breakdown"
  | .overview => "Overview"
  | .trendOverTime => "Trend Over Time"
  | .comparison => "Comparison"
  | .relativeImportance => "Relative Importance"
  | .rankingGrouped => "Ranking (grouped)"
  | .yearToDate => "Year to Date"
  | .processControlRollingMean => "Process Control (rolling mean)"
  | .processControlMean => "Process Control (mean)"
  | .correlation => "Correlation"
  | .mutualInfo => "Mutual Information"
  | .clusteringKMeans => "Clustering (k-means)"
  | .anomalySpike => "Anomaly (spike)"
  | .anomalyTrend => "Anomaly (trend)"
  | .periodOverPeriod => "Period over Period"
  | .periodChanges => "Period Changes"
  | .periodChangesDetailed => "Period Changes (detailed)"
  | .periodOverPeriodSelected => "Period over Period (selected)"
  | .trendWithForecast => "Trend with Forecast"
  | .timeSeriesDecomposition => "Time Series Decomposition"

/-- A field-requirement entry `{min, max, description}`. -/
structure Requirement where
  min : ℕ
  max : ℕ
  description : String
deriving DecidableEq, Repr

/-- `ANALYSIS_REQUIREMENTS`: the fixed requirement table, one object-literal
entry per analysis type, in source order. -/
def ANALYSIS_REQUIREMENTS_LIST : List (AnalysisType × Requirement) :=
  [(.calculatedMeasureKPI, ⟨1, 5, "Select 1-5 numeric fields"⟩),
   (.ranking, ⟨1, 1, "Select 1 field to rank"⟩),
   (.breakdownGeoSpatial, ⟨1, 2, "Select 1-2 fields (1 geo field recommended)"⟩),
   (.breakdown, ⟨1, 3, "Select 1-3 fields"⟩),
   (.overview, ⟨0, 0, "No fields required - shows dataset overview"⟩),
   (.trendOverTime, ⟨1, 2, "Select 1-2 fields (1 time field recommended)"⟩),
   (.comparison, ⟨2, 4, "Select 2-4 fields"⟩),
   (.relativeImportance, ⟨2, 5, "Select 2-5 fields"⟩),
   (.rankingGrouped, ⟨2, 3, "Select 2-3 fields"⟩),
   (.yearToDate, ⟨1, 2, "Select 1-2 fields (1 date field recommended)"⟩),
   (.processControlRollingMean, ⟨1, 2, "Select 1-2 numeric fields"⟩),
   (.processControlMean, ⟨1, 2, "Select 1-2 numeric fields"⟩),
   (.correlation, ⟨2, 10, "Select 2-10 numeric fields"⟩),
   (.mutualInfo, ⟨2, 10, "Select 2-10 fields"⟩),
   (.clusteringKMeans, ⟨2, 10, "Select 2-10 numeric fields"⟩),
   (.anomalySpike, ⟨1, 2, "Select 1-2 numeric fields"⟩),
   (.anomalyTrend, ⟨1, 2, "Select 1-2 numeric fields"⟩),
   (.periodOverPeriod, ⟨1, 2, "Select 1-2 fields"⟩),
   (.periodChanges, ⟨1, 2, "Select 1-2 fields"⟩),
   (.periodChangesDetailed, ⟨1, 3, "Select 1-3 fields"⟩),
   (.periodOverPeriodSelected, ⟨2, 3, "Select 2-3 fields"⟩),
   (.trendWithForecast, ⟨1, 2, "Select 1-2 fields (1 time field recommended)"⟩),
   (.timeSeriesDecomposition, ⟨1, 2, "Select 1-2 fields (1 time field recommended)"⟩)]

/-- Requirement lookup (`ANALYSIS_REQUIREMENTS[type]`; total on the closed
union, so the default is never reached). -/
def ANALYSIS_REQUIREMENTS (t : AnalysisType) : Requirement :=
  (ANALYSIS_REQUIREMENTS_LIST.lookup t).getD ⟨0, 0, ""⟩

/-- `ANALYSIS_TYPES`: the catalog array, in source order. -/
def ANALYSIS_TYPES : List AnalysisType :=
  [.calculatedMeasureKPI, .ranking, .breakdownGeoSpatial, .breakdown, .overview,
   .trendOverTime, .comparison, .relativeImportance, .rankingGrouped, .yearToDate,
   .processControlRollingMean, .processControlMean, .correlation, .mutualInfo,
   .clusteringKMeans, .anomalySpike, .anomalyTrend, .periodOverPeriod,
   .periodChanges, .periodChangesDetailed, .periodOverPeriodSelected,
   .trendWithForecast, .timeSeriesDecomposition]

/- ### Field resolution shared by the dispatcher branches -/

/-- `Object.keys(data[0] ?? {})` when the dataset is nonempty, else `[]`. -/
def allFieldsOf (data : List Rec) : List String :=
  match data with
  | [] => []
  | r :: _ => r.map Prod.fst

/-- `numericFieldsAll`: dataset fields that are mostly numeric. -/
def numericFieldsAllOf (data : List Rec) : List String :=
  (allFieldsOf data).filter (fun f => isMostlyNumeric (some f) data)

/-- `dateFieldsAll`: dataset fields that are mostly date-like. -/
def dateFieldsAllOf (data : List Rec) : List String :=
  (allFieldsOf data).filter (fun f => isMostlyDateLike (some f) data)

/-- `fields.find((f) => isMostlyDateLike(f, data)) ?? dateFieldsAll[0]`. -/
def resolveDateField (fields : List String) (data : List Rec) : Option String :=
  match fields.find? (fun f => isMostlyDateLike (some f) data) with
  | some f => some f
  | none => (dateFieldsAllOf data).head?

/-- `fields.find((f) => isMostlyNumeric(f, data)) ?? numericFieldsAll[0]`. -/
def resolveNumField (fields : List String) (data : List Rec) : Option String :=
  match fields.find? (fun f => isMostlyNumeric (some f) data) with
  | some f => some f
  | none => (numericFieldsAllOf data).head?

/-- `fields[0] ?? dateFieldsAll[0]` (Trend Over Time time field). -/
def resolveTrendTimeField (fields : List String) (data : List Rec) : Option String :=
  match fields.head? with
  | some f => some f
  | none => (dateFieldsAllOf data).head?

/-- `fields[1] ?? numericFieldsAll[0]` (Trend Over Time value field). -/
def resolveTrendValueField (fields : List String) (data : List Rec) : Option String :=
  match fields.get? 1 with
  | some f => some f
  | none => (numericFieldsAllOf data).head?

/-- `data[0]?.[f]`: the first record's value of a field. -/
def firstRowSample (data : List Rec) (f : String) : Option Value :=
  match data with
  | [] => none
  | r :: _ => rowGet r f

/-- The first-record numeric filter used by the KPI and Correlation branches:
`fields.filter((f) => typeof data[0]?.[f] === "number")`. -/
def firstRowNumericFields (fields : List String) (data : List Rec) : List String :=
  fields.filter (fun f => isNumber (firstRowSample data f))

/-- `!timeField || !valueField` for the find-based date/numeric resolution
shared by the Process Control, Anomaly, Period, Forecast and Decomposition
branches. -/
def tfvfMissing (fields : List String) (data : List Rec) : Bool :=
  !(fieldTruthy (resolveDateField fields data)) ||
  !(fieldTruthy (resolveNumField fields data))

/-- The extracted time series of those same branches. -/
def seriesPts (fields : List String) (data : List Rec) : List TimePoint :=
  extractTimeSeries ((resolveDateField fields data).getD "")
    ((resolveNumField fields data).getD "") data

/-- Models `Date.now()`; it is reached only in the Year to Date branch when
the extracted point list is empty, where only the (irrelevant) year of the
resulting empty chart's cutoff depends on it. -/
def jsNow : ℤ := 0

/-- Cumulative sums (`cum += p.y` pushes). -/
def cumsum (l : List ℚ) : List ℚ :=
  (l.scanl (· + ·) 0).drop 1

/- ### Dispatcher branches (the cases of the `performAnalysis` switch) -/

/-- `Calculated Measure (KPI)`: sum/avg/count per selected field whose FIRST
record value is a number; the per-key totals of the row/field double loop. -/
def kpiAnalysis (fields : List String) (data : List Rec) : ResultEnvelope :=
  let numericFields := firstRowNumericFields fields data
  let valsOf := fun (f : String) => data.filterMap (fun row =>
    match rowGet row f with
    | some (.num v) => some v
    | _ => none)
  .calculation (List.flatten (numericFields.map (fun f =>
    let vs := valsOf f
    [(f ++ "_avg", CalcVal.num (if 0 < vs.length then qsum vs / vs.length else 0)),
     (f ++ "_sum", CalcVal.num (qsum vs)),
     (f ++ "_count", CalcVal.num (vs.length : ℚ))])))

/-- `Ranking`: group by the first field's string value, sum numeric values
else count, top 10 descending (stable sort). -/
def rankingAnalysis (fields : List String) (data : List Rec) : ResultEnvelope :=
  let field := fields.head?
  let values := data.foldl (fun acc row =>
    let v := rowGetOpt row field
    upsertAdd acc (jsStringOr v "Unknown") (if isNumber v then numOf v else 1)) []
  let sorted := (jsSortBy (fun a b : String × ℚ => b.2 < a.2) values).take 10
  .plotly [{ ttype := "bar",
             x := sorted.map (fun p => PlotVal.num (p.2 : ℝ)),
             y := sorted.map (fun p => PlotVal.str p.1) }]
    { title := "Ranking: " ++ field.getD "undefined" }

/-- `Ranking (grouped)`: 2D grouping capped to 15 groups and 10 items. -/
def rankingGroupedAnalysis (fields : List String) (data : List Rec) : ResultEnvelope :=
  let groupField := fields.head?
  let valueField := fields.get? 1
  let grouped := data.foldl (fun acc row =>
    let g := jsStringNullish (rowGetOpt row groupField) "Unknown"
    let it := if fieldTruthy valueField then
        jsStringNullish (rowGetOpt row valueField) "Unknown"
      else "Count"
    upsertAdd2 acc g it) []
  let groups := (grouped.map Prod.fst).take 15
  let items := (firstDedup (List.flatten (groups.map (fun g =>
    match grouped.find? (fun p => p.1 = g) with
    | some p => p.2.map Prod.fst
    | none => [])))).take 10
  .plotly (items.map (fun it =>
    { ttype := "bar", name := some it,
      x := groups.map PlotVal.str,
      y := groups.map (fun g => PlotVal.num (((alookup2 grouped g it).getD 0 : ℚ) : ℝ)) }))
    { title := "Ranking (grouped): " ++ groupField.getD "undefined" ++
        (if fieldTruthy valueField then " × " ++ valueField.getD "" else "") }

/-- `Breakdown`: frequency count of the first field, top 25 plus an `Other`
bucket omitted when its remainder sum is 0. -/
def breakdownAnalysis (fields : List String) (data : List Rec) : ResultEnvelope :=
  let field := fields.head?
  let breakdown := data.foldl (fun acc row =>
    upsertAdd acc (jsStringOr (rowGetOpt row field) "Unknown") 1) []
  let entries := jsSortBy (fun a b : String × ℚ => b.2 < a.2) breakdown
  let top := entries.take 25
  let other := qsum ((entries.drop 25).map Prod.snd)
  .plotly [{ ttype := "bar",
             x := (top.map Prod.fst ++ (if 0 < other then ["Other"] else [])).map PlotVal.str,
             y := (top.map Prod.snd ++ (if 0 < other then [other] else [])).map
               (fun c => PlotVal.num (c : ℝ)) }]
    { title := "Breakdown: " ++ field.getD "undefined" }

/-- `Breakdown (geo spatial)`: like Breakdown but sums an optional numeric
value field (count-of-1 fallback), top 30. -/
def breakdownGeoAnalysis (fields : List String) (data : List Rec) : ResultEnvelope :=
  let geoField := fields.head?
  let valueField := fields.get? 1
  let counts := data.foldl (fun acc row =>
    let v := if fieldTruthy valueField && isNumber (rowGetOpt row valueField) then
        numOf (rowGetOpt row valueField)
      else 1
    upsertAdd acc (jsStringNullish (rowGetOpt row geoField) "Unknown") v) []
  let entries := (jsSortBy (fun a b : String × ℚ => b.2 < a.2) counts).take 30
  .plotly [{ ttype := "bar",
             x := entries.map (fun p => PlotVal.str p.1),
             y := entries.map (fun p => PlotVal.num (p.2 : ℝ)) }]
    { title := "Geo Breakdown: " ++ geoField.getD "undefined" ++
        (if fieldTruthy valueField then " (sum " ++ valueField.getD "" ++ ")" else "") }

/-- `Overview`: record count plus unique-value cardinality of the first 5
fields. -/
def overviewAnalysis (data : List Rec) : ResultEnvelope :=
  let fieldCounts := (allFieldsOf data).map (fun f =>
    (f, ((data.map (fun row => jsStringOr (rowGet row f) "null")).dedup).length))
  .calculation ([("Total Records", CalcVal.num (data.length : ℚ)),
                 ("Unique Fields", CalcVal.num (fieldCounts.length : ℚ))] ++
    (fieldCounts.take 5).map (fun p => (p.1 ++ " (unique)", CalcVal.num (p.2 : ℚ))))

/-- `Trend Over Time`: first selected field (else first auto-detected
date-like field) as time, bucketed by UTC day; explicit error result when
the resolved time field is falsy. -/
def trendAnalysis (fields : List String) (data : List Rec) : ResultEnvelope :=
  let timeField := resolveTrendTimeField fields data
  let valueField := resolveTrendValueField fields data
  if !(fieldTruthy timeField) then errorResult "No time field detected"
  else
    let tf := timeField.getD ""
    let points := data.filterMap (fun row =>
      match toEpochMs (rowGet row tf) with
      | none => none
      | some t => some (TimePoint.mk t
          (if fieldTruthy valueField && isNumber (rowGetOpt row valueField) then
             numOf (rowGetOpt row valueField)
           else 1)))
    let buckets := bucketByDay (jsSortBy (fun a b : TimePoint => a.t < b.t) points)
    .plotly [{ ttype := "scatter", mode := some "lines+markers",
               x := buckets.map (fun b => PlotVal.date b.t),
               y := buckets.map (fun b => PlotVal.num (b.y : ℝ)) }]
      { title := "Trend Over Time: " ++
          (if fieldTruthy valueField then valueField.getD "" else "Count") ++ " by " ++ tf }

/-- The `{sum, n}` accumulator of the Comparison branch. -/
def upsertSumN (l : List (String × ℚ × ℕ)) (k : String) (v : ℚ) :
    List (String × ℚ × ℕ) :=
  match l with
  | [] => [(k, v, 1)]
  | (k0, s0, n0) :: rest =>
      if k0 = k then (k0, s0 + v, n0 + 1) :: rest else (k0, s0, n0) :: upsertSumN rest k v

/-- `Comparison`: group-mean of the value field by category when both are
given and the first record's value is numeric, else means of up to 8 numeric
fields. -/
def comparisonAnalysis (fields : List String) (data : List Rec) : ResultEnvelope :=
  let categoryField := fields.head?
  let valueField := fields.get? 1
  if fieldTruthy categoryField && fieldTruthy valueField &&
      isNumber (firstRowSample data (valueField.getD "")) then
    let vf := valueField.getD ""
    let agg := data.foldl (fun acc row =>
      match rowGet row vf with
      | some (.num v) => upsertSumN acc (jsStringNullish (rowGetOpt row categoryField) "Unknown") v
      | _ => acc) []
    let entries := (jsSortBy (fun a b : String × ℚ => b.2 < a.2)
      (agg.map (fun p => (p.1, if p.2.2 ≠ 0 then p.2.1 / (p.2.2 : ℚ) else 0)))).take 25
    .plotly [{ ttype := "bar",
               x := entries.map (fun p => PlotVal.str p.1),
               y := entries.map (fun p => PlotVal.num (p.2 : ℝ)) }]
      { title := "Comparison: avg(" ++ vf ++ ") by " ++ categoryField.getD "" }
  else
    let nums := (fields.filter (fun f => isMostlyNumeric (some f) data)).take 8
    let candidates := if nums.length ≠ 0 then nums else (numericFieldsAllOf data).take 8
    let means := candidates.map (fun f => (f, meanOfField f data))
    .plotly [{ ttype := "bar",
               x := means.map (fun p => PlotVal.str p.1),
               y := means.map (fun p => PlotVal.num (p.2 : ℝ)) }]
      { title := "Comparison (means)" }

/-- `Relative Importance`: `|pearson(feature, target)|` with the last
selected numeric field as target, descending; error result below 2 numeric
fields. -/
noncomputable def relativeImportanceAnalysis (fields : List String) (data : List Rec) :
    ResultEnvelope :=
  let nums := fields.filter (fun f => isMostlyNumeric (some f) data)
  if nums.length < 2 then
    errorResult "Select at least 2 numeric fields (features + target)"
  else
    let target := nums.getLastD ""
    let features := jsSlice nums 0 (-1)
    let scores := jsSortBy (fun a b : String × ℝ => b.2 < a.2)
      (features.map (fun f => (f, |pearson f target data|)))
    .plotly [{ ttype := "bar",
               x := scores.map (fun p => PlotVal.str p.1),
               y := scores.map (fun p => PlotVal.num p.2) }]
      { title := "Relative Importance vs " ++ target ++ " (|corr|)" }

/-- `Year to Date`: cumulative sum of the value field over points at or after
Jan 1 of the first point's year; error result when no date field resolves. -/
def yearToDateAnalysis (fields : List String) (data : List Rec) : ResultEnvelope :=
  let timeField := resolveDateField fields data
  let valueField := resolveNumField fields data
  if !(fieldTruthy timeField) then errorResult "No date field detected"
  else
    let tf := timeField.getD ""
    let pts0 := data.filterMap (fun row =>
      match toEpochMs (rowGet row tf) with
      | none => none
      | some t => some (TimePoint.mk t
          (if fieldTruthy valueField && isNumber (rowGetOpt row valueField) then
             numOf (rowGetOpt row valueField)
           else 1)))
    let pts := jsSortBy (fun a b : TimePoint => a.t < b.t) pts0
    let yearStart := dateUTC (epochYear (((pts.head?).map TimePoint.t).getD jsNow)) 0 1
    let kept := pts.filter (fun p => decide (yearStart ≤ p.t))
    .plotly [{ ttype := "scatter", mode := some "lines",
               x := kept.map (fun p => PlotVal.date p.t),
               y := (cumsum (kept.map TimePoint.y)).map (fun c => PlotVal.num (c : ℝ)) }]
      { title := "Year to Date: cumulative " ++
          (match valueField with | some v => v | none => "Count") }

/-- `Process Control (mean)` / `(rolling mean)`: series, mean line, ±3σ
control limits, plus a rolling mean for the rolling variant. -/
noncomputable def processControlAnalysis (ty : String) (fields : List String)
    (data : List Rec) : ResultEnvelope :=
  if tfvfMissing fields data then errorResult "Need a date-like field and a numeric field"
  else
    let valueField := resolveNumField fields data
    let pts := seriesPts fields data
    if pts.length < 2 then errorResult "Not enough time series points"
    else
      let xs := pts.map (fun p => PlotVal.date p.t)
      let ys := pts.map TimePoint.y
      let mean := qsum ys / (ys.length : ℚ)
      let std := stddev ys
      let roll := movingAverage ys (min 20 (max 5 (ys.length / 10)))
      .plotly ([{ ttype := "scatter", mode := some "lines", name := valueField,
                  x := xs, y := ys.map (fun v => PlotVal.num (v : ℝ)) },
                { ttype := "scatter", mode := some "lines", name := some "Mean",
                  x := xs, y := xs.map (fun _ => PlotVal.num (mean : ℝ)) },
                { ttype := "scatter", mode := some "lines", name := some "UCL (3σ)",
                  x := xs, y := xs.map (fun _ => PlotVal.num ((mean : ℝ) + 3 * std)) },
                { ttype := "scatter", mode := some "lines", name := some "LCL (3σ)",
                  x := xs, y := xs.map (fun _ => PlotVal.num ((mean : ℝ) - 3 * std)) }] ++
        (if ty == "Process Control (rolling mean)" then
          [{ ttype := "scatter", mode := some "lines", name := some "Rolling mean",
             x := xs, y := roll.map (fun v => PlotVal.num (v : ℝ)) }]
         else []))
        { title := ty ++ ": " ++ valueField.getD "" }

/-- `Correlation`: Pearson heatmap over the first-record-numeric selected
fields; error result below 2. -/
noncomputable def correlationAnalysis (fields : List String) (data : List Rec) :
    ResultEnvelope :=
  let numericFields := firstRowNumericFields fields data
  if numericFields.length < 2 then errorResult "Need at least 2 numeric fields"
  else
    .plotly [{ ttype := "heatmap",
               x := numericFields.map PlotVal.str,
               y := numericFields.map PlotVal.str,
               z := buildCorrelationMatrix numericFields data }]
      { title := "Correlation (Pearson)" }

/-- `Mutual Information`: pairwise MI heatmap over at most 6 fields,
defaulting to the first 6 dataset fields when none are selected. -/
noncomputable def mutualInformationAnalysis (fields : List String) (data : List Rec) :
    ResultEnvelope :=
  let chosen := fields.take 6
  let usable := if chosen.length ≠ 0 then chosen else (allFieldsOf data).take 6
  if usable.length < 2 then errorResult "Need at least 2 fields"
  else
    .plotly [{ ttype := "heatmap",
               x := usable.map PlotVal.str,
               y := usable.map PlotVal.str,
               z := buildMutualInformationMatrix usable data }]
      { title := "Mutual Information (approx.)" }

/-- The 1500-capped point collection of the Clustering branch (the break
fires after a row is processed). -/
def collectPoints (xf yf : String) : List Rec → List Point2 → List Point2
  | [], acc => acc
  | r :: rs, acc =>
      let acc1 := match rowGet r xf, rowGet r yf with
        | some (.num x), some (.num y) => acc ++ [Point2.mk x y]
        | _, _ => acc
      if 1500 ≤ acc1.length then acc1 else collectPoints xf yf rs acc1

/-- `Clustering (k-means)`: k=3, 20 iterations, first two numeric candidate
fields, at most 1500 points. -/
def clusteringAnalysis (fields : List String) (data : List Rec) : ResultEnvelope :=
  let nums := fields.filter (fun f => isMostlyNumeric (some f) data)
  let candidates := (if nums.length ≠ 0 then nums else numericFieldsAllOf data).take 3
  if candidates.length < 2 then errorResult "Need at least 2 numeric fields"
  else
    let xField := candidates.getD 0 ""
    let yField := candidates.getD 1 ""
    let pts := collectPoints xField yField data []
    let labels := (kmeans2D pts 3 20).1
    .plotly ((List.range 3).map (fun i =>
      { ttype := "scatter", mode := some "markers",
        name := some ("Cluster " ++ toString (i + 1)),
        x := (((pts.zip labels).filter (fun pl => pl.2 = i)).map Prod.fst).map
          (fun p => PlotVal.num (p.x : ℝ)),
        y := (((pts.zip labels).filter (fun pl => pl.2 = i)).map Prod.fst).map
          (fun p => PlotVal.num (p.y : ℝ)) }))
      { title := "k-means (k=3): " ++ xField ++ " vs " ++ yField }

/-- `Anomaly (spike)` / `(trend)`: spike flags `y > mean + 3σ`, trend flags
`|y − mean| > 2σ`; both require 5 time-series points. -/
noncomputable def anomalyAnalysis (ty : String) (fields : List String)
    (data : List Rec) : ResultEnvelope :=
  if tfvfMissing fields data then errorResult "Need a date-like field and a numeric field"
  else
    let valueField := resolveNumField fields data
    let pts := seriesPts fields data
    if pts.length < 5 then errorResult "Not enough points"
    else
      let xs := pts.map (fun p => PlotVal.date p.t)
      let ys := pts.map TimePoint.y
      let mu := qsum ys / (ys.length : ℚ)
      let sd := stddev ys
      let thresh := (mu : ℝ) + 3 * sd
      let anomalies := pts.filter (fun p =>
        if ty == "Anomaly (spike)" then decide (thresh < (p.y : ℝ))
        else decide (2 * sd < |(p.y : ℝ) - (mu : ℝ)|))
      .plotly [{ ttype := "scatter", mode := some "lines", name := valueField,
                 x := xs, y := ys.map (fun v => PlotVal.num (v : ℝ)) },
               { ttype := "scatter", mode := some "markers", name := some "Anomaly",
                 x := anomalies.map (fun a => PlotVal.date a.t),
                 y := anomalies.map (fun a => PlotVal.num (a.y : ℝ)) },
               { ttype := "scatter", mode := some "lines", name := some "Threshold",
                 x := xs, y := xs.map (fun _ => PlotVal.num thresh) }]
        { title := ty ++ ": " ++ valueField.getD "" }

/-- The four `Period …` variants: previous vs current period sums with a
delta/percent callout; percent is `null` when the previous sum is 0. -/
def periodAnalysis (ty : String) (fields : List String) (data : List Rec) :
    ResultEnvelope :=
  if tfvfMissing fields data then errorResult "Need a date-like field and a numeric field"
  else
    let valueField := resolveNumField fields data
    let pts := seriesPts fields data
    if pts.length < 2 then errorResult "Not enough points"
    else
      let s := popSummary pts
      .plotly [{ ttype := "bar",
                 x := [PlotVal.str "Previous", PlotVal.str "Current"],
                 y := [PlotVal.num (s.sumPrev : ℝ), PlotVal.num (s.sumCur : ℝ)] }]
        { title := ty ++ ": " ++ valueField.getD "",
          callouts := [{ yPos := s.sumCur, delta := s.delta, pct := s.pct }] }

/-- JS `new Date(msNumber)` millisecond truncation (toward zero). -/
def ratTrunc (q : ℚ) : ℤ := q.num / (q.den : ℤ)

/-- `Trend with Forecast`: OLS fit, 10 forecast points using the last
observed step as stride; requires 5 points. -/
def forecastAnalysis (fields : List String) (data : List Rec) : ResultEnvelope :=
  if tfvfMissing fields data then errorResult "Need a date-like field and a numeric field"
  else
    let valueField := resolveNumField fields data
    let pts := seriesPts fields data
    if pts.length < 5 then errorResult "Not enough points"
    else
      let xs := pts.map (fun p => (p.t : ℚ))
      let ys := pts.map TimePoint.y
      let ab := linearRegression xs ys
      let lastT := xs.getLastD 0
      let step := if 2 ≤ xs.length then lastT - xs.getD (xs.length - 2) 0
                  else 24 * 3600 * 1000
      let fpts := (List.range 10).map (fun i =>
        let t := lastT + step * ((i : ℚ) + 1)
        (t, ab.1 + ab.2 * t))
      .plotly [{ ttype := "scatter", mode := some "lines", name := some "Actual",
                 x := pts.map (fun p => PlotVal.date p.t),
                 y := ys.map (fun v => PlotVal.num (v : ℝ)) },
               { ttype := "scatter", mode := some "lines", name := some "Forecast",
                 x := fpts.map (fun p => PlotVal.date (ratTrunc p.1)),
                 y := fpts.map (fun p => PlotVal.num (p.2 : ℝ)) }]
        { title := "Trend with Forecast: " ++ valueField.getD "" }

/-- `Time Series Decomposition`: observed, moving-average trend, residual. -/
def decompositionAnalysis (fields : List String) (data : List Rec) : ResultEnvelope :=
  if tfvfMissing fields data then errorResult "Need a date-like field and a numeric field"
  else
    let valueField := resolveNumField fields data
    let pts := seriesPts fields data
    let xs := pts.map (fun p => PlotVal.date p.t)
    let ys := pts.map TimePoint.y
    let trend := movingAverage ys (min 30 (max 7 (ys.length / 8)))
    let resid := List.zipWith (fun (v w : ℚ) => v - w) ys trend
    .plotly [{ ttype := "scatter", mode := some "lines", name := some "Observed",
               x := xs, y := ys.map (fun v => PlotVal.num (v : ℝ)) },
             { ttype := "scatter", mode := some "lines", name := some "Trend (MA)",
               x := xs, y := trend.map (fun v => PlotVal.num (v : ℝ)) },
             { ttype := "scatter", mode := some "lines", name := some "Residual",
               x := xs, y := resid.map (fun v => PlotVal.num (v : ℝ)) }]
      { title := "Time Series Decomposition: " ++ valueField.getD "" }

/-- The `default` switch arm: histogram of the first selected field. -/
def defaultAnalysis (ty : String) (fields : List String) (data : List Rec) :
    ResultEnvelope :=
  let f0 := fields.head?
  .plotly [{ ttype := "histogram",
             x := if isMostlyNumeric f0 data then
                 data.filterMap (fun r =>
                   match rowGetOpt r f0 with
                   | some (.num q) => some (PlotVal.num (q : ℝ))
                   | _ => none)
               else data.map (fun r => PlotVal.str (jsStringNullish (rowGetOpt r f0) "Unknown")) }]
    { title := ty ++ ": " ++ f0.getD "field" }

/- ### The dispatcher -/

/-- The arm of the `switch` statement a type string selects. -/
inductive SwitchArm where
  | kpi | ranking | rankingGrouped | breakdown | breakdownGeo | overview
  | trendOverTime | comparison | relativeImportance | yearToDate
  | processControl | correlation | mutualInfo | clustering | anomaly
  | period | forecast | decomposition | other
deriving DecidableEq, Repr

/-- Dispatch of the `switch (type)` statement; fall-through case groups share
one arm, every unrecognised string reaches `default`. -/
def switchArmOf : String → SwitchArm
  | "Calculated Measure (KPI)" => .kpi
  | "Ranking" => .ranking
  | "Ranking (grouped)" => .rankingGrouped
  | "Breakdown" => .breakdown
  | "Breakdown (geo spatial)" => .breakdownGeo
  | "Overview" => .overview
  | "Trend Over Time" => .trendOverTime
  | "Comparison" => .comparison
  | "Relative Importance" => .relativeImportance
  | "Year to Date" => .yearToDate
  | "Process Control (mean)" => .processControl
  | "Process Control (rolling mean)" => .processControl
  | "Correlation" => .correlation
  | "Mutual Information" => .mutualInfo
  | "Clustering (k-means)" => .clustering
  | "Anomaly (spike)" => .anomaly
  | "Anomaly (trend)" => .anomaly
  | "Period over Period" => .period
  | "Period over Period (selected)" => .period
  | "Period Changes" => .period
  | "Period Changes (detailed)" => .period
  | "Trend with Forecast" => .forecast
  | "Time Series Decomposition" => .decomposition
  | _ => .other

/-- `performAnalysis(type, fields, data)`: the analysis execution switch.  It
is a total function — every arm, the `default` arm included, produces a
`ResultEnvelope`; no input can make it fail. -/
noncomputable def performAnalysis (type : String) (fields : List String)
    (data : List Rec) : ResultEnvelope :=
  match switchArmOf type with
  | .kpi => kpiAnalysis fields data
  | .ranking => rankingAnalysis fields data
  | .rankingGrouped => rankingGroupedAnalysis fields data
  | .breakdown => breakdownAnalysis fields data
  | .breakdownGeo => breakdownGeoAnalysis fields data
  | .overview => overviewAnalysis data
  | .trendOverTime => trendAnalysis fields data
  | .comparison => comparisonAnalysis fields data
  | .relativeImportance => relativeImportanceAnalysis fields data
  | .yearToDate => yearToDateAnalysis fields data
  | .processControl => processControlAnalysis type fields data
  | .correlation => correlationAnalysis fields data
  | .mutualInfo => mutualInformationAnalysis fields data
  | .clustering => clusteringAnalysis fields data
  | .anomaly => anomalyAnalysis type fields data
  | .period => periodAnalysis type fields data
  | .forecast => forecastAnalysis fields data
  | .decomposition => decompositionAnalysis fields data
  | .other => defaultAnalysis type fields data

/-- The data-insufficiency condition of each branch: exactly the guards under
which the branch returns its `Error` calculation envelope instead of a
chart. -/
def insufficientData (type : String) (fields : List String) (data : List Rec) : Bool :=
  match switchArmOf type with
  | .trendOverTime => !(fieldTruthy (resolveTrendTimeField fields data))
  | .relativeImportance =>
      decide ((fields.filter (fun f => isMostlyNumeric (some f) data)).length < 2)
  | .yearToDate => !(fieldTruthy (resolveDateField fields data))
  | .processControl => tfvfMissing fields data || decide ((seriesPts fields data).length < 2)
  | .correlation => decide ((firstRowNumericFields fields data).length < 2)
  | .mutualInfo =>
      let chosen := fields.take 6
      decide ((if chosen.length ≠ 0 then chosen else (allFieldsOf data).take 6).length < 2)
  | .clustering =>
      let nums := fields.filter (fun f => isMostlyNumeric (some f) data)
      decide (((if nums.length ≠ 0 then nums else numericFieldsAllOf data).take 3).length < 2)
  | .anomaly => tfvfMissing fields data || decide ((seriesPts fields data).length < 5)
  | .period => tfvfMissing fields data || decide ((seriesPts fields data).length < 2)
  | .forecast => tfvfMissing fields data || decide ((seriesPts fields data).length < 5)
  | .decomposition => tfvfMissing fields data
  | _ => false

/- ### The execution gate around the dispatcher -/

/-- `canExecuteAnalysis`: the selected-field count must lie within the
registry's `[min, max]` bounds for the selected type. -/
def canExecuteAnalysis (selectedAnalysisType : Option AnalysisType)
    (selectedFields : List String) : Bool :=
  match selectedAnalysisType with
  | none => false
  | some t =>
      let r := ANALYSIS_REQUIREMENTS t
      decide (r.min ≤ selectedFields.length) && decide (selectedFields.length ≤ r.max)

/-- `executeAnalysis`: rejected (`none`, nothing computed) unless the
precondition holds, in which case the dispatcher runs. -/
noncomputable def executeAnalysis (selectedAnalysisType : Option AnalysisType)
    (selectedFields : List String) (data : List Rec) : Option ResultEnvelope :=
  match selectedAnalysisType with
  | none => none
  | some t =>
      if canExecuteAnalysis (some t) selectedFields then
        some (performAnalysis t.toStr selectedFields data)
      else none

/- ### C3 — the catalog -/

/-- C3 counterexample: the analysis catalog does not contain 22 types — it
contains 23 (the spec's count of "22 fixed string enumerators" is off by
one). -/
theorem C3_counterexample : ANALYSIS_TYPES.length ≠ 22 := by decide

/-- C3 (amended): the catalog is a fixed constant of exactly 23 distinct
analysis types covering the whole union, and the field-requirement table has
exactly one entry per analysis type. -/
theorem C3_catalog : ANALYSIS_TYPES.length = 23 ∧ ANALYSIS_TYPES.Nodup ∧
    (∀ t : AnalysisType, t ∈ ANALYSIS_TYPES) ∧
    ANALYSIS_REQUIREMENTS_LIST.length = 23 ∧
    (∀ t : AnalysisType,
      (ANALYSIS_REQUIREMENTS_LIST.filter (fun p => p.1 = t)).length = 1) := by
  refine ⟨by decide, by decide, ?_, by decide, ?_⟩ <;> (intro t; cases t <;> decide)

/- ### C6 — toEpochMs -/

/-- `jsRound` is the round-half-up rounding `⌊q + 1/2⌋`. -/
theorem jsRound_eq_floor (q : ℚ) : jsRound q = ⌊q + 1/2⌋ := by
  rw [jsRound, Rat.floor_def, Int.fdiv_eq_ediv _ (Int.natCast_nonneg _)]

/-- C6: `toEpochMs` round-trips a native date value to its own millisecond
timestamp; a finite number is mapped to `Date.UTC(1899, 11, 30) + round(v) ·
86,400,000` with round-half-up rounding; and the spreadsheet serial 44562
lands on 2022-01-01 00:00:00 UTC (epoch millisecond 1640995200000). -/
theorem C6_toEpochMs :
    (∀ ms : ℤ, toEpochMs (some (Value.date ms)) = some ms) ∧
    (∀ q : ℚ, jsRound q = ⌊q + 1/2⌋ ∧ toEpochMs (some (Value.num q)) =
      some (dateUTC 1899 11 30 + jsRound q * 86400000)) ∧
    toEpochMs (some (Value.num 44562)) = some (dateUTC 2022 0 1) ∧
    dateUTC 2022 0 1 = 1640995200000 := by
  have h44562 : jsRound 44562 = 44562 := by
    rw [jsRound_eq_floor, Int.floor_eq_iff] <;> norm_num
  refine ⟨fun ms => rfl, fun q => ⟨jsRound_eq_floor q, ?_⟩, ?_, by decide⟩
  · show some (dateUTC 1899 11 30 + jsRound q * (24 * 3600 * 1000)) = _
    norm_num
  · show some (dateUTC 1899 11 30 + jsRound 44562 * (24 * 3600 * 1000)) = _
    rw [h44562]
    decide

/- ### C7 — movingAverage window 1 -/

/-- One unfolding step of the running-sum loop. -/
theorem maGo_cons (all : List ℚ) (w : ℕ) (v : ℚ) (rest : List ℚ) (i : ℕ) (sum : ℚ) :
    maGo all w (v :: rest) i sum =
      (if w ≤ i then sum + v - all.getD (i - w) 0 else sum + v) /
        ((min (i + 1) w : ℕ) : ℚ) ::
      maGo all w rest (i + 1)
        (if w ≤ i then sum + v - all.getD (i - w) 0 else sum + v) := rfl

/-- With window 1, each step of the running-sum loop reproduces its input
element: the subtraction removes exactly the previous element. -/
theorem maGo_window_one (rest : List ℚ) : ∀ (pre : List ℚ) (i : ℕ) (sum : ℚ),
    i = pre.length → sum = pre.getD (i - 1) 0 →
    maGo (pre ++ rest) 1 rest i sum = rest := by
  induction rest with
  | nil => intro pre i sum _ _; rfl
  | cons v rest ih =>
      intro pre i sum hi hsum
      rw [maGo_cons]
      by_cases hp : pre.length = 0
      · obtain rfl : pre = [] := List.length_eq_zero.mp hp
        obtain rfl : i = 0 := hi
        obtain rfl : sum = 0 := hsum
        rw [if_neg (by omega)]
        have hmin : min (0 + 1) 1 = 1 := rfl
        rw [zero_add, hmin, Nat.cast_one, div_one]
        exact congrArg (v :: ·) (ih [v] 1 v rfl rfl)
      · have h1i : 1 ≤ i := by omega
        rw [if_pos h1i]
        have hA : (pre ++ v :: rest).getD (i - 1) 0 = pre.getD (i - 1) 0 :=
          List.getD_append _ _ _ _ (by omega)
        rw [hA, ← hsum, add_sub_cancel_left]
        have hmin : min (i + 1) 1 = 1 := by omega
        rw [hmin, Nat.cast_one, div_one]
        refine congrArg (v :: ·) ?_
        rw [List.append_cons]
        refine ih (pre ++ [v]) (i + 1) v (by simp [hi]) ?_
        have he : i + 1 - 1 = pre.length := by omega
        rw [he, List.getD_append_right _ _ _ _ le_rfl, Nat.sub_self]
        rfl

/-- C7: `movingAverage(values, 1)` is the identity. -/
theorem C7_movingAverage_one (values : List ℚ) : movingAverage values 1 = values :=
  maGo_window_one values [] 0 0 rfl rfl

/- ### C1 — the execution gate -/

/-- C1: for every analysis type, execution is accepted exactly when the
selected-field count lies within the registry's `[min, max]` bounds — outside
them the request is rejected before any computation (`none`), within them the
dispatcher is invoked on exactly the selection. -/
theorem C1_execution_gate : ∀ (t : AnalysisType) (fields : List String) (data : List Rec),
    ((executeAnalysis (some t) fields data).isSome = true ↔
      ((ANALYSIS_REQUIREMENTS t).min ≤ fields.length ∧
       fields.length ≤ (ANALYSIS_REQUIREMENTS t).max)) ∧
    (((ANALYSIS_REQUIREMENTS t).min ≤ fields.length ∧
       fields.length ≤ (ANALYSIS_REQUIREMENTS t).max) →
      executeAnalysis (some t) fields data =
        some (performAnalysis t.toStr fields data)) := by
  intro t fields data
  constructor
  · simp [executeAnalysis, canExecuteAnalysis]
  · intro h
    simp [executeAnalysis, canExecuteAnalysis, h.1, h.2]

/-- Witness for C1 at a concrete in-bounds input (`Overview`, no fields). -/
theorem C1_execution_gate_witness :
    ((ANALYSIS_REQUIREMENTS .overview).min ≤ ([] : List String).length ∧
      ([] : List String).length ≤ (ANALYSIS_REQUIREMENTS .overview).max) ∧
    executeAnalysis (some .overview) [] [] =
      some (performAnalysis (AnalysisType.toStr .overview) [] []) :=
  ⟨by decide, (C1_execution_gate .overview [] []).2 (by decide)⟩

/- ### C9 — numeric fields are date-like -/

/-- The sampling loop sees the same values for any two predicates, and a
pointwise-weaker predicate cannot score more hits. -/
theorem sampleLoop_mono (p1 p2 : Value → Bool) (hp : ∀ v, p1 v = true → p2 v = true)
    (f : String) : ∀ (rows : List Rec) (seen c1 c2 : ℕ), c1 ≤ c2 →
    (sampleLoop p1 f rows seen c1).1 = (sampleLoop p2 f rows seen c2).1 ∧
    (sampleLoop p1 f rows seen c1).2 ≤ (sampleLoop p2 f rows seen c2).2 := by
  intro rows
  induction rows with
  | nil => exact fun seen c1 c2 h => ⟨rfl, h⟩
  | cons r rs ih =>
      intro seen c1 c2 h
      have hstep : ∀ v : Value,
          (if p1 v = true then c1 + 1 else c1) ≤ (if p2 v = true then c2 + 1 else c2) := by
        intro v
        by_cases h1 : p1 v = true
        · rw [if_pos h1, if_pos (hp v h1)]; omega
        · rw [if_neg h1]
          by_cases h2 : p2 v = true
          · rw [if_pos h2]; omega
          · rw [if_neg h2]; omega
      rcases hv : rowGet r f with _ | v
      · simpa only [sampleLoop, hv] using ih seen c1 c2 h
      · cases v with
        | nullV => simpa only [sampleLoop, hv] using ih seen c1 c2 h
        | num q =>
            by_cases h50 : 50 ≤ seen + 1
            · simp only [sampleLoop, hv, if_pos h50]
              exact ⟨trivial, hstep _⟩
            · simp only [sampleLoop, hv, if_neg h50]
              exact ih (seen + 1) _ _ (hstep _)
        | str s =>
            by_cases h50 : 50 ≤ seen + 1
            · simp only [sampleLoop, hv, if_pos h50]
              exact ⟨trivial, hstep _⟩
            · simp only [sampleLoop, hv, if_neg h50]
              exact ih (seen + 1) _ _ (hstep _)
        | date ms =>
            by_cases h50 : 50 ≤ seen + 1
            · simp only [sampleLoop, hv, if_pos h50]
              exact ⟨trivial, hstep _⟩
            · simp only [sampleLoop, hv, if_neg h50]
              exact ih (seen + 1) _ _ (hstep _)

/-- Every numeric sample converts through `toEpochMs` (as a spreadsheet
serial date), so it is also a date-like sample. -/
theorem numericSample_dateLike (v : Value) :
    numericSample v = true → dateLikeSample v = true := by
  cases v <;> simp [numericSample, dateLikeSample, toEpochMs]

/-- C9: `isMostlyNumeric` implies `isMostlyDateLike` — numeric and date-like
classification are not mutually exclusive, and any mostly-numeric field
passes the date-like auto-detection. -/
theorem C9_numeric_implies_datelike (field : Option String) (rows : List Rec) :
    isMostlyNumeric field rows = true → isMostlyDateLike field rows = true := by
  cases field with
  | none => intro h; exact absurd h (by simp [isMostlyNumeric])
  | some f =>
      intro h
      by_cases hf : f = ""
      · simp [isMostlyNumeric, hf] at h
      · have hm := sampleLoop_mono numericSample dateLikeSample
          (fun v => numericSample_dateLike v) f rows 0 0 0 le_rfl
        simp only [isMostlyNumeric, hf, if_false, Bool.and_eq_true, decide_eq_true_eq] at h
        simp only [isMostlyDateLike, hf, if_false, Bool.and_eq_true, decide_eq_true_eq]
        obtain ⟨hpos, hrat⟩ := h
        have hseenD : 0 < (sampleLoop dateLikeSample f rows 0 0).1 := hm.1 ▸ hpos
        refine ⟨hseenD, ?_⟩
        have hseenQ : (0 : ℚ) < ((sampleLoop dateLikeSample f rows 0 0).1 : ℚ) := by
          exact_mod_cast hseenD
        calc (7 : ℚ) / 10 ≤ ((sampleLoop numericSample f rows 0 0).2 : ℚ) /
              ((sampleLoop numericSample f rows 0 0).1 : ℚ) := hrat
          _ = ((sampleLoop numericSample f rows 0 0).2 : ℚ) /
              ((sampleLoop dateLikeSample f rows 0 0).1 : ℚ) := by rw [hm.1]
          _ ≤ ((sampleLoop dateLikeSample f rows 0 0).2 : ℚ) /
              ((sampleLoop dateLikeSample f rows 0 0).1 : ℚ) :=
            div_le_div_iff_of_pos_right hseenQ |>.mpr (by exact_mod_cast hm.2)

/-- A concrete all-numeric single-row field is mostly numeric. -/
theorem isMostlyNumeric_single :
    isMostlyNumeric (some "a") [[("a", Value.num 1)]] = true := by
  have hs : sampleLoop numericSample "a" [[("a", Value.num 1)]] 0 0 = (1, 1) := by decide
  simp only [isMostlyNumeric]
  rw [if_neg (by decide : ¬("a" : String) = ""), hs]
  simp only [Bool.and_eq_true, decide_eq_true_eq]
  norm_num

/-- Witness for C9 at a concrete mostly-numeric field. -/
theorem C9_numeric_implies_datelike_witness :
    isMostlyNumeric (some "a") [[("a", Value.num 1)]] = true ∧
    isMostlyDateLike (some "a") [[("a", Value.num 1)]] = true :=
  ⟨isMostlyNumeric_single,
   C9_numeric_implies_datelike (some "a") [[("a", Value.num 1)]] isMostlyNumeric_single⟩

/- ### C5 — self-correlation and the matrix diagonal -/

/-- Both components of every self-pair come from the same lookup, so they are
equal. -/
theorem pearsonPairs_self_eq (f : String) (rows : List Rec) :
    ∀ p ∈ pearsonPairs f f rows, p.1 = p.2 := by
  intro p hp
  simp only [pearsonPairs, List.mem_filterMap] at hp
  obtain ⟨r, _, hr⟩ := hp
  rcases hv : rowGet r f with _ | v
  · rw [hv] at hr; exact absurd hr (by simp)
  · cases v with
    | num a =>
        rw [hv] at hr
        have : (a, a) = p := by simpa using hr
        rw [← this]
    | str s => rw [hv] at hr; exact absurd hr (by simp)
    | date ms => rw [hv] at hr; exact absurd hr (by simp)
    | nullV => rw [hv] at hr; exact absurd hr (by simp)

/-- A fold of nonnegative additions from a nonnegative start stays
nonnegative. -/
theorem qsum_nonneg (l : List ℚ) (h : ∀ x ∈ l, 0 ≤ x) : 0 ≤ qsum l := by
  have hgen : ∀ (l : List ℚ) (acc : ℚ), 0 ≤ acc → (∀ x ∈ l, 0 ≤ x) →
      0 ≤ l.foldl (· + ·) acc := by
    intro l
    induction l with
    | nil => intro acc ha _; exact ha
    | cons x xs ih =>
        intro acc ha hx
        exact ih (acc + x) (add_nonneg ha (hx x (by simp)))
          (fun y hy => hx y (by simp [hy]))
  exact hgen l 0 le_rfl h

/-- Self-correlation of a field with nonzero centered sum of squares is
exactly 1. -/
theorem pearson_self (f : String) (rows : List Rec)
    (h : centeredSumSq f rows ≠ 0) : pearson f f rows = 1 := by
  have hself := pearsonPairs_self_eq f rows
  have hcss : centeredSumSq f rows =
      qsum ((pearsonPairs f f rows).map (fun p =>
        (p.1 - qsum ((pearsonPairs f f rows).map Prod.fst) /
          ((pearsonPairs f f rows).length : ℚ)) *
        (p.1 - qsum ((pearsonPairs f f rows).map Prod.fst) /
          ((pearsonPairs f f rows).length : ℚ)))) := rfl
  have hlen2 : 2 ≤ (pearsonPairs f f rows).length := by
    by_contra hlt
    push_neg at hlt
    apply h
    rcases hp : pearsonPairs f f rows with _ | ⟨p, _ | ⟨q, ps⟩⟩
    · rw [hcss, hp]; rfl
    · rw [hcss, hp]
      show 0 + (p.1 - (0 + p.1) / ((1 : ℕ) : ℚ)) * (p.1 - (0 + p.1) / ((1 : ℕ) : ℚ)) = 0
      norm_num
    · rw [hp] at hlt; exact absurd hlt (by simp)
  set pairs := pearsonPairs f f rows with hpairs
  set m := qsum (pairs.map Prod.fst) / (pairs.length : ℚ) with hm
  have hmB : qsum (pairs.map Prod.snd) / (pairs.length : ℚ) = m := by
    rw [List.map_congr_left (fun p hp => (hself p hp).symm)]
  have hnum : qsum (pairs.map (fun p => (p.1 - m) * (p.2 - m))) =
      centeredSumSq f rows := by
    rw [hcss]
    exact congrArg qsum (List.map_congr_left (fun p hp => by rw [← hself p hp]))
  have hdenB : qsum (pairs.map (fun p => (p.2 - m) * (p.2 - m))) =
      centeredSumSq f rows := by
    rw [hcss]
    exact congrArg qsum (List.map_congr_left (fun p hp => by rw [← hself p hp]))
  have hdenA : qsum (pairs.map (fun p => (p.1 - m) * (p.1 - m))) =
      centeredSumSq f rows := hcss.symm
  have hpos : 0 < centeredSumSq f rows := by
    have hnn : 0 ≤ centeredSumSq f rows := by
      rw [hcss]
      apply qsum_nonneg
      intro x hx
      obtain ⟨p, _, hpx⟩ := List.mem_map.mp hx
      rw [← hpx]
      exact mul_self_nonneg _
    exact lt_of_le_of_ne hnn (Ne.symm h)
  show (if pairs.length < 2 then (0 : ℝ) else _) = 1
  rw [if_neg (by omega)]
  rw [hmB, hnum, hdenA, hdenB]
  rw [if_neg (by push_neg; exact ⟨h, h⟩)]
  have hcast : (0 : ℝ) < ((centeredSumSq f rows : ℚ) : ℝ) := by exact_mod_cast hpos
  rw [Real.sqrt_mul_self hcast.le]
  exact div_self hcast.ne'

/-- C5: `pearson(f, f, rows) = 1` whenever the paired numeric values of `f`
have nonzero variance, and every diagonal entry of the Correlation matrix is
exactly 1 regardless of the data. -/
theorem C5_pearson_self_and_diagonal :
    (∀ (f : String) (rows : List Rec), centeredSumSq f rows ≠ 0 →
      pearson f f rows = 1) ∧
    (∀ (fields : List String) (rows : List Rec) (i : ℕ), i < fields.length →
      ((buildCorrelationMatrix fields rows).getD i []).getD i 0 = 1) := by
  refine ⟨pearson_self, ?_⟩
  intro fields rows i hi
  have h1 : (buildCorrelationMatrix fields rows).getD i [] =
      (List.range fields.length).map (fun j =>
        if i = j then (1 : ℝ) else pearson (fields.getD i "") (fields.getD j "") rows) := by
    rw [buildCorrelationMatrix, List.getD_eq_getElem _ _ (by simpa using hi)]
    simp
  rw [h1, List.getD_eq_getElem _ _ (by simpa using hi)]
  simp

/-- Witness for C5 at a concrete two-row dataset. -/
theorem C5_pearson_self_and_diagonal_witness :
    pearson "a" "a" [[("a", Value.num 1)], [("a", Value.num 2)]] = 1 ∧
    ((buildCorrelationMatrix ["a", "b"] []).getD 0 []).getD 0 0 = 1 := by
  constructor
  · apply C5_pearson_self_and_diagonal.1
    have hp : pearsonPairs "a" "a" [[("a", Value.num 1)], [("a", Value.num 2)]] =
        [(1, 1), (2, 2)] := by decide
    rw [centeredSumSq, hp]
    show (0 : ℚ) + ((1 : ℚ) - ((0 + 1 + 2) / ((2 : ℕ) : ℚ))) *
        ((1 : ℚ) - ((0 + 1 + 2) / ((2 : ℕ) : ℚ))) +
        ((2 : ℚ) - ((0 + 1 + 2) / ((2 : ℕ) : ℚ))) *
        ((2 : ℚ) - ((0 + 1 + 2) / ((2 : ℕ) : ℚ))) ≠ 0
    norm_num
  · exact C5_pearson_self_and_diagonal.2 ["a", "b"] [] 0 (by norm_num)

/- ### C4 — Trend Over Time error behaviour -/

/-- C4 counterexample: a selection whose only field is not date-like, over a
dataset with no auto-detectable date-like field, still produces a chart (an
empty one), not the explicit error result the claim requires. -/
theorem C4_counterexample :
    isMostlyDateLike (some "a") [[("a", Value.nullV)]] = false ∧
    dateFieldsAllOf [[("a", Value.nullV)]] = [] ∧
    hasErrorCalc (performAnalysis "Trend Over Time" ["a"] [[("a", Value.nullV)]]) = false ∧
    isPlotly (performAnalysis "Trend Over Time" ["a"] [[("a", Value.nullV)]]) = true := by
  refine ⟨by decide, by decide, by decide, by decide⟩

/-- C4 (amended): the Trend Over Time branch returns its explicit error
result exactly when the resolved time field — the FIRST SELECTED field,
regardless of whether it is date-like, falling back to the first
auto-detected date-like dataset field only when no field is selected — is
falsy; whenever a field is selected (or a date-like field is auto-detected)
it produces a chart, date-like or not. -/
theorem C4_trend_time_field (fields : List String) (data : List Rec) :
    (fieldTruthy (resolveTrendTimeField fields data) = false →
      performAnalysis "Trend Over Time" fields data =
        errorResult "No time field detected") ∧
    (fieldTruthy (resolveTrendTimeField fields data) = true →
      isPlotly (performAnalysis "Trend Over Time" fields data) = true) := by
  have hd : performAnalysis "Trend Over Time" fields data =
      trendAnalysis fields data := rfl
  rw [hd]
  constructor
  · intro h
    simp only [trendAnalysis, h]
    rfl
  · intro h
    simp only [trendAnalysis, h]
    rfl

/-- Witness for C4's amended statement: with nothing selected and an empty
dataset, the time field is falsy and the error result is returned. -/
theorem C4_trend_time_field_witness :
    fieldTruthy (resolveTrendTimeField [] []) = false ∧
    performAnalysis "Trend Over Time" [] [] = errorResult "No time field detected" :=
  ⟨by decide, (C4_trend_time_field [] []).1 (by decide)⟩

/- ### C8 — splitLastPeriod and the percent change -/

/-- C8 counterexample: on a 6-point series (period = 10), `current` is NOT
the whole clamped tail and `previous` is NOT empty — the negative JS slice
indices wrap instead of clamping, giving `current` = last 4 points and
`previous` = first 2 points. -/
theorem C8_counterexample :
    (splitLastPeriod [⟨0, 1⟩, ⟨1, 1⟩, ⟨2, 1⟩, ⟨3, 1⟩, ⟨4, 1⟩, ⟨5, 1⟩]).1 ≠
      [⟨0, 1⟩, ⟨1, 1⟩, ⟨2, 1⟩, ⟨3, 1⟩, ⟨4, 1⟩, ⟨5, 1⟩] ∧
    (splitLastPeriod [⟨0, 1⟩, ⟨1, 1⟩, ⟨2, 1⟩, ⟨3, 1⟩, ⟨4, 1⟩, ⟨5, 1⟩]).2 ≠
      ([] : List TimePoint) := by
  exact ⟨by decide, by decide⟩

/-- C8 (amended): with `n` points and `period = max(10, ⌊n/4⌋)`: when
`period ≤ n`, `current` is the last `period` points and `previous` the
`period` points before them clamped at the start, as the claim says; when
`2·n ≤ period`, `current` is the whole series and `previous` empty; but when
`period/2 < n < period`, the negative slice indices wrap: `current` is only
the last `period − n` points and `previous` the first `2·n − period` points.
The percent change is `null` exactly when the previous-period sum is 0. -/
theorem C8_split_and_pct (pts : List TimePoint) :
    (max 10 (pts.length / 4) ≤ pts.length →
      (splitLastPeriod pts).1 = pts.drop (pts.length - max 10 (pts.length / 4)) ∧
      (splitLastPeriod pts).2 =
        (pts.take (pts.length - max 10 (pts.length / 4))).drop
          (pts.length - 2 * max 10 (pts.length / 4))) ∧
    (2 * pts.length ≤ max 10 (pts.length / 4) →
      (splitLastPeriod pts).1 = pts ∧ (splitLastPeriod pts).2 = []) ∧
    (max 10 (pts.length / 4) < 2 * pts.length → pts.length < max 10 (pts.length / 4) →
      (splitLastPeriod pts).1 = pts.drop (2 * pts.length - max 10 (pts.length / 4)) ∧
      (splitLastPeriod pts).2 = pts.take (2 * pts.length - max 10 (pts.length / 4))) ∧
    ((popSummary pts).pct = none ↔ (popSummary pts).sumPrev = 0) := by
  set n := pts.length with hn
  set P := max 10 (n / 4) with hP
  have hsplit : splitLastPeriod pts =
      (pts.drop (jsSliceIdx n ((n : ℤ) - P)),
       (pts.take (jsSliceIdx n ((n : ℤ) - P))).drop
         (jsSliceIdx n (max 0 ((n : ℤ) - 2 * P)))) := rfl
  refine ⟨?_, ?_, ?_, ?_⟩
  · intro hPn
    rw [hsplit]
    constructor
    · show pts.drop _ = pts.drop _
      congr 1
      rw [jsSliceIdx]
      split <;> omega
    · show (pts.take _).drop _ = (pts.take _).drop _
      have h1 : jsSliceIdx n ((n : ℤ) - P) = n - P := by rw [jsSliceIdx]; split <;> omega
      have h2 : jsSliceIdx n (max 0 ((n : ℤ) - 2 * P)) = n - 2 * P := by
        rw [jsSliceIdx]; split <;> omega
      rw [h1, h2]
  · intro h2n
    rw [hsplit]
    have h1 : jsSliceIdx n ((n : ℤ) - P) = 0 := by rw [jsSliceIdx]; split <;> omega
    have h2 : jsSliceIdx n (max 0 ((n : ℤ) - 2 * P)) = 0 := by
      rw [jsSliceIdx]; split <;> omega
    rw [h1, h2]
    constructor
    · exact pts.drop_zero
    · show (pts.take 0).drop 0 = []
      rfl
  · intro hlt hnP
    rw [hsplit]
    have h1 : jsSliceIdx n ((n : ℤ) - P) = 2 * n - P := by rw [jsSliceIdx]; split <;> omega
    have h2 : jsSliceIdx n (max 0 ((n : ℤ) - 2 * P)) = 0 := by
      rw [jsSliceIdx]; split <;> omega
    rw [h1, h2]
    constructor
    · rfl
    · rw [List.drop_zero]
  · show (if (popSummary pts).sumPrev ≠ 0 then
        some ((popSummary pts).delta / (popSummary pts).sumPrev) else none) = none ↔ _
    split
    · rename_i hne
      exact ⟨fun hc => absurd hc (by simp), fun hc => absurd hc hne⟩
    · rename_i heq
      push_neg at heq
      exact ⟨fun _ => heq, fun _ => rfl⟩

/-- Witness for C8's amended statement at a concrete 6-point series (the
wrapped-slice regime). -/
theorem C8_split_and_pct_witness :
    (splitLastPeriod [⟨0, 2⟩, ⟨1, 2⟩, ⟨2, 2⟩, ⟨3, 2⟩, ⟨4, 2⟩, ⟨5, 2⟩]).1 =
      [⟨0, 2⟩, ⟨1, 2⟩, ⟨2, 2⟩, ⟨3, 2⟩, ⟨4, 2⟩, ⟨5, 2⟩].drop
        (2 * ([⟨0, 2⟩, ⟨1, 2⟩, ⟨2, 2⟩, ⟨3, 2⟩, ⟨4, 2⟩, ⟨5, 2⟩] : List TimePoint).length -
          max 10 (([⟨0, 2⟩, ⟨1, 2⟩, ⟨2, 2⟩, ⟨3, 2⟩, ⟨4, 2⟩, ⟨5, 2⟩] : List TimePoint).length / 4)) ∧
    (splitLastPeriod [⟨0, 2⟩, ⟨1, 2⟩, ⟨2, 2⟩, ⟨3, 2⟩, ⟨4, 2⟩, ⟨5, 2⟩]).2 =
      [⟨0, 2⟩, ⟨1, 2⟩, ⟨2, 2⟩, ⟨3, 2⟩, ⟨4, 2⟩, ⟨5, 2⟩].take
        (2 * ([⟨0, 2⟩, ⟨1, 2⟩, ⟨2, 2⟩, ⟨3, 2⟩, ⟨4, 2⟩, ⟨5, 2⟩] : List TimePoint).length -
          max 10 (([⟨0, 2⟩, ⟨1, 2⟩, ⟨2, 2⟩, ⟨3, 2⟩, ⟨4, 2⟩, ⟨5, 2⟩] : List TimePoint).length / 4)) :=
  (C8_split_and_pct [⟨0, 2⟩, ⟨1, 2⟩, ⟨2, 2⟩, ⟨3, 2⟩, ⟨4, 2⟩, ⟨5, 2⟩]).2.2.1
    (by decide) (by decide)

/- ### C10 — first-record-only numeric classification -/

/-- Appending equal suffixes is left-cancellative on strings. -/
theorem append_right_cancel_str (f g s : String) (h : f ++ s = g ++ s) : f = g := by
  have hd := congrArg String.data h
  rw [String.data_append, String.data_append] at hd
  have hlen : f.data.length = g.data.length := by
    have hl := congrArg List.length hd
    simp only [List.length_append] at hl
    omega
  exact String.ext (List.append_inj hd hlen).1

/-- Strings with distinct last characters stay distinct under any prefix. -/
theorem append_ne_of_getLast_ne (f g s t : String) (c d : Char)
    (hs : s.data.getLast? = some c) (ht : t.data.getLast? = some d) (hcd : c ≠ d) :
    f ++ s ≠ g ++ t := by
  intro h
  have hd := congrArg (fun x : String => x.data.getLast?) h
  simp only [String.data_append, List.getLast?_append, hs, ht, Option.or_some] at hd
  exact hcd (by simpa using hd)

/-- Every key of the KPI calculation envelope is one of the three suffixed
keys of a first-record-numeric field. -/
theorem mem_calcKeys_kpi (fields : List String) (data : List Rec) (k : String) :
    k ∈ calcKeys (kpiAnalysis fields data) →
    ∃ g ∈ firstRowNumericFields fields data,
      k = g ++ "_avg" ∨ k = g ++ "_sum" ∨ k = g ++ "_count" := by
  intro hk
  simp only [kpiAnalysis, calcKeys, calcEntries, List.mem_map, List.mem_flatten] at hk
  obtain ⟨pair, ⟨l, hl, hpl⟩, hpk⟩ := hk
  obtain ⟨g, hg, hlg⟩ := hl
  refine ⟨g, hg, ?_⟩
  rw [← hlg] at hpl
  rw [← hpk]
  simp only [List.mem_cons, List.not_mem_nil, or_false] at hpl
  rcases hpl with hp | hp | hp
  · exact Or.inl (by rw [hp])
  · exact Or.inr (Or.inl (by rw [hp]))
  · exact Or.inr (Or.inr (by rw [hp]))

/-- C10: the KPI and Correlation branches classify a field as numeric by the
FIRST record only — a field whose first-record value is not a number is
excluded from the KPI keys and from the Correlation heatmap axes no matter
what the remaining records hold, and the classification depends only on the
first record (the 50-sample rule is never consulted there). -/
theorem C10_first_record_gate :
    (∀ (fields : List String) (data : List Rec) (f : String),
      f ∈ fields → isNumber (firstRowSample data f) = false →
      f ∉ firstRowNumericFields fields data ∧
      (f ++ "_avg") ∉ calcKeys (performAnalysis "Calculated Measure (KPI)" fields data) ∧
      (f ++ "_sum") ∉ calcKeys (performAnalysis "Calculated Measure (KPI)" fields data) ∧
      (f ++ "_count") ∉ calcKeys (performAnalysis "Calculated Measure (KPI)" fields data) ∧
      (∀ tr ∈ plotlyTraces (performAnalysis "Correlation" fields data),
        PlotVal.str f ∉ tr.x)) ∧
    (∀ (fields : List String) (r : Rec) (d1 d2 : List Rec),
      firstRowNumericFields fields (r :: d1) = firstRowNumericFields fields (r :: d2)) := by
  constructor
  · intro fields data f hf hnum
    have hnotin : f ∉ firstRowNumericFields fields data := by
      intro hmem
      rw [firstRowNumericFields, List.mem_filter] at hmem
      rw [hnum] at hmem
      exact absurd hmem.2 (by simp)
    have hkpi : performAnalysis "Calculated Measure (KPI)" fields data =
        kpiAnalysis fields data := rfl
    have hexcl : ∀ s : String, (s = "_avg" ∨ s = "_sum" ∨ s = "_count") →
        (f ++ s) ∉ calcKeys (kpiAnalysis fields data) := by
      intro s hsuf hmem
      obtain ⟨g, hg, hcase⟩ := mem_calcKeys_kpi fields data (f ++ s) hmem
      have hfg : f = g → False := fun he => hnotin (he ▸ hg)
      rcases hsuf with rfl | rfl | rfl <;> rcases hcase with hc | hc | hc
      · exact hfg (append_right_cancel_str f g _ hc)
      · exact append_ne_of_getLast_ne f g "_avg" "_sum" 'g' 'm' rfl rfl (by decide) hc
      · exact append_ne_of_getLast_ne f g "_avg" "_count" 'g' 't' rfl rfl (by decide) hc
      · exact append_ne_of_getLast_ne f g "_sum" "_avg" 'm' 'g' rfl rfl (by decide) hc
      · exact hfg (append_right_cancel_str f g _ hc)
      · exact append_ne_of_getLast_ne f g "_sum" "_count" 'm' 't' rfl rfl (by decide) hc
      · exact append_ne_of_getLast_ne f g "_count" "_avg" 't' 'g' rfl rfl (by decide) hc
      · exact append_ne_of_getLast_ne f g "_count" "_sum" 't' 'm' rfl rfl (by decide) hc
      · exact hfg (append_right_cancel_str f g _ hc)
    refine ⟨hnotin, ?_, ?_, ?_, ?_⟩
    · rw [hkpi]; exact hexcl "_avg" (Or.inl rfl)
    · rw [hkpi]; exact hexcl "_sum" (Or.inr (Or.inl rfl))
    · rw [hkpi]; exact hexcl "_count" (Or.inr (Or.inr rfl))
    · have hcorr : performAnalysis "Correlation" fields data =
          correlationAnalysis fields data := rfl
      rw [hcorr]
      intro tr htr hmemx
      by_cases hc : (firstRowNumericFields fields data).length < 2
      · simp only [correlationAnalysis, if_pos hc, errorResult, plotlyTraces] at htr
        exact absurd htr (by simp)
      · simp only [correlationAnalysis, if_neg hc, plotlyTraces,
          List.mem_singleton] at htr
        rw [htr] at hmemx
        simp only [List.mem_map] at hmemx
        obtain ⟨g, hg, hgf⟩ := hmemx
        have : g = f := by injection hgf
        exact hnotin (this ▸ hg)
  · intro fields r d1 d2
    rfl

/-- Witness for C10 at a dataset whose first record holds a string in field
`a` while the second holds a number. -/
theorem C10_first_record_gate_witness :
    (("a" : String) ∈ ["a"] ∧
      isNumber (firstRowSample [[("a", Value.str "x")], [("a", Value.num 1)]] "a") = false) ∧
    ("a" : String) ∉ firstRowNumericFields ["a"] [[("a", Value.str "x")], [("a", Value.num 1)]] ∧
    ("a" ++ "_sum") ∉ calcKeys (performAnalysis "Calculated Measure (KPI)" ["a"]
      [[("a", Value.str "x")], [("a", Value.num 1)]]) :=
  ⟨⟨by decide, by decide⟩,
   (C10_first_record_gate.1 ["a"] [[("a", Value.str "x")], [("a", Value.num 1)]] "a"
     (by decide) (by decide)).1,
   (C10_first_record_gate.1 ["a"] [[("a", Value.str "x")], [("a", Value.num 1)]] "a"
     (by decide) (by decide)).2.2.1⟩

/- ### C2 — totality and the error surface -/

/-- Every result is an envelope: a chart or a calculation. -/
theorem envelope_cases (e : ResultEnvelope) :
    (∃ d l, e = .plotly d l) ∨ (∃ kv, e = .calculation kv) := by
  cases e with
  | plotly d l => exact Or.inl ⟨d, l, rfl⟩
  | calculation kv => exact Or.inr ⟨kv, rfl⟩

/-- The single-entry error envelope always carries its `Error` key. -/
theorem hasErrorCalc_errorResult (msg : String) :
    hasErrorCalc (errorResult msg) = true := rfl

/-- Trend Over Time surfaces its insufficiency guard as an error envelope. -/
theorem trend_insuff (fields : List String) (data : List Rec)
    (h : (!(fieldTruthy (resolveTrendTimeField fields data))) = true) :
    hasErrorCalc (trendAnalysis fields data) = true := by
  simp only [trendAnalysis]
  rw [if_pos h]
  rfl

/-- Relative Importance surfaces its insufficiency guard as an error
envelope. -/
theorem relImportance_insuff (fields : List String) (data : List Rec)
    (h : (fields.filter (fun f => isMostlyNumeric (some f) data)).length < 2) :
    hasErrorCalc (relativeImportanceAnalysis fields data) = true := by
  simp only [relativeImportanceAnalysis]
  rw [if_pos h]
  rfl

/-- Year to Date surfaces its insufficiency guard as an error envelope. -/
theorem ytd_insuff (fields : List String) (data : List Rec)
    (h : (!(fieldTruthy (resolveDateField fields data))) = true) :
    hasErrorCalc (yearToDateAnalysis fields data) = true := by
  simp only [yearToDateAnalysis]
  rw [if_pos h]
  rfl

/-- Process Control surfaces both of its insufficiency guards as error
envelopes. -/
theorem processControl_insuff (ty : String) (fields : List String) (data : List Rec)
    (h : (tfvfMissing fields data || decide ((seriesPts fields data).length < 2)) = true) :
    hasErrorCalc (processControlAnalysis ty fields data) = true := by
  simp only [processControlAnalysis]
  rcases Bool.or_eq_true_iff.mp h with h1 | h2
  · rw [if_pos h1]; rfl
  · by_cases h1 : tfvfMissing fields data = true
    · rw [if_pos h1]; rfl
    · rw [if_neg h1, if_pos (of_decide_eq_true h2)]; rfl

/-- Correlation surfaces its insufficiency guard as an error envelope. -/
theorem correlation_insuff (fields : List String) (data : List Rec)
    (h : (firstRowNumericFields fields data).length < 2) :
    hasErrorCalc (correlationAnalysis fields data) = true := by
  simp only [correlationAnalysis]
  rw [if_pos h]
  rfl

/-- Mutual Information surfaces its insufficiency guard as an error
envelope. -/
theorem mutualInfo_insuff (fields : List String) (data : List Rec)
    (h : (if (fields.take 6).length ≠ 0 then fields.take 6
          else (allFieldsOf data).take 6).length < 2) :
    hasErrorCalc (mutualInformationAnalysis fields data) = true := by
  simp only [mutualInformationAnalysis]
  rw [if_pos h]
  rfl

/-- Clustering surfaces its insufficiency guard as an error envelope. -/
theorem clustering_insuff (fields : List String) (data : List Rec)
    (h : ((if (fields.filter (fun f => isMostlyNumeric (some f) data)).length ≠ 0
           then fields.filter (fun f => isMostlyNumeric (some f) data)
           else numericFieldsAllOf data).take 3).length < 2) :
    hasErrorCalc (clusteringAnalysis fields data) = true := by
  simp only [clusteringAnalysis]
  rw [if_pos h]
  rfl

/-- Anomaly surfaces both of its insufficiency guards as error envelopes. -/
theorem anomaly_insuff (ty : String) (fields : List String) (data : List Rec)
    (h : (tfvfMissing fields data || decide ((seriesPts fields data).length < 5)) = true) :
    hasErrorCalc (anomalyAnalysis ty fields data) = true := by
  simp only [anomalyAnalysis]
  rcases Bool.or_eq_true_iff.mp h with h1 | h2
  · rw [if_pos h1]; rfl
  · by_cases h1 : tfvfMissing fields data = true
    · rw [if_pos h1]; rfl
    · rw [if_neg h1, if_pos (of_decide_eq_true h2)]; rfl

/-- The Period family surfaces both of its insufficiency guards as error
envelopes. -/
theorem period_insuff (ty : String) (fields : List String) (data : List Rec)
    (h : (tfvfMissing fields data || decide ((seriesPts fields data).length < 2)) = true) :
    hasErrorCalc (periodAnalysis ty fields data) = true := by
  simp only [periodAnalysis]
  rcases Bool.or_eq_true_iff.mp h with h1 | h2
  · rw [if_pos h1]; rfl
  · by_cases h1 : tfvfMissing fields data = true
    · rw [if_pos h1]; rfl
    · rw [if_neg h1, if_pos (of_decide_eq_true h2)]; rfl

/-- Trend with Forecast surfaces both of its insufficiency guards as error
envelopes. -/
theorem forecast_insuff (fields : List String) (data : List Rec)
    (h : (tfvfMissing fields data || decide ((seriesPts fields data).length < 5)) = true) :
    hasErrorCalc (forecastAnalysis fields data) = true := by
  simp only [forecastAnalysis]
  rcases Bool.or_eq_true_iff.mp h with h1 | h2
  · rw [if_pos h1]; rfl
  · by_cases h1 : tfvfMissing fields data = true
    · rw [if_pos h1]; rfl
    · rw [if_neg h1, if_pos (of_decide_eq_true h2)]; rfl

/-- Time Series Decomposition surfaces its insufficiency guard as an error
envelope. -/
theorem decomposition_insuff (fields : List String) (data : List Rec)
    (h : tfvfMissing fields data = true) :
    hasErrorCalc (decompositionAnalysis fields data) = true := by
  simp only [decompositionAnalysis]
  rw [if_pos h]
  rfl

/-- C2: for every analysis type string (unrecognised ones included), every
field list, and every dataset, `performAnalysis` returns a result envelope —
it is a total function, so no input can raise — and whenever a branch's
data-insufficiency condition holds, the result is a calculation envelope
carrying an `Error` entry. -/
theorem C2_total_and_error_surface (type : String) (fields : List String)
    (data : List Rec) :
    ((∃ d l, performAnalysis type fields data = .plotly d l) ∨
     (∃ kv, performAnalysis type fields data = .calculation kv)) ∧
    (insufficientData type fields data = true →
      hasErrorCalc (performAnalysis type fields data) = true) := by
  refine ⟨envelope_cases _, ?_⟩
  intro h
  rcases harm : switchArmOf type with _ | _ | _ | _ | _ | _ | _ | _ | _ | _ | _
    | _ | _ | _ | _ | _ | _ | _ | _ <;>
    simp only [performAnalysis, insufficientData, harm] at h ⊢ <;>
    try exact absurd h Bool.false_ne_true
  case trendOverTime => exact trend_insuff fields data (by simpa using h)
  case relativeImportance => exact relImportance_insuff fields data (by simpa using h)
  case yearToDate => exact ytd_insuff fields data (by simpa using h)
  case processControl => exact processControl_insuff type fields data (by simpa using h)
  case correlation => exact correlation_insuff fields data (by simpa using h)
  case mutualInfo => exact mutualInfo_insuff fields data (by simpa using h)
  case clustering => exact clustering_insuff fields data (by simpa using h)
  case anomaly => exact anomaly_insuff type fields data (by simpa using h)
  case period => exact period_insuff type fields data (by simpa using h)
  case forecast => exact forecast_insuff fields data (by simpa using h)
  case decomposition => exact decomposition_insuff fields data (by simpa using h)

/-- Witness for C2's error-surfacing clause at a concrete insufficient
input. -/
theorem C2_total_and_error_surface_witness :
    insufficientData "Anomaly (spike)" [] [] = true ∧
    hasErrorCalc (performAnalysis "Anomaly (spike)" [] []) = true :=
  ⟨by decide, (C2_total_and_error_surface "Anomaly (spike)" [] []).2 (by decide)⟩

end RA
